import Mathlib

/-!
Verification of the game-store database operator scripts
(`scripts/load.py` and `scripts/explain.py`).

The two Python programs are sequential orchestrations of external SQL
execution.  We shallowly embed them as pure Lean functions over an
explicit environment that supplies the outcome of every external
interaction (database connection attempts, SQL command execution,
console input).  Each embedded phase returns the trace of external
events it performed (connections opened and closed, SQL commands
issued, prompts shown), the console lines it printed, and its boolean
result, exactly following the control flow of the Python source.

Notes on fidelity:
  * SQL text constants are carried as strings; long multi-line SQL from
    the source is abbreviated to a single recognizable line (quoted SQL
    string literals elided), since no claim inspects the SQL text beyond
    identity and the EXPLAIN wrapping prefix.
  * Console message text follows the source with ASCII in place of the
    check-mark glyphs and with quote characters around names elided.
  * A `psycopg2.Error` raised by an external call is modelled by the
    environment returning `Except.error msg`; the `except` clauses of
    the source become pattern matches on that value.
  * `input()` either returns a line or raises KeyboardInterrupt; this is
    the `PromptIn` type.  We model the interrupt at the prompt sites,
    which are the places an operator cancels interactively.
-/

set_option autoImplicit false

namespace GameStoreDB

/-! ## Python string primitives used by the scripts -/

/-- Whitespace test matching what `str.strip()` removes for ASCII input. -/
def isPySpace (c : Char) : Bool :=
  c == ' ' || c == '\t' || c == '\n' || c == '\r' || c == '\x0b' || c == '\x0c'

/-- `str.strip()`: drop leading and trailing whitespace. -/
def pyStrip (s : String) : String :=
  String.mk (((s.data.dropWhile isPySpace).reverse.dropWhile isPySpace).reverse)

/-- `str.lower()` (ASCII, which is all the scripts compare against). -/
def pyLower (s : String) : String :=
  String.mk (s.data.map Char.toLower)

/-- The `.strip().lower()` normalization applied to both prompt inputs. -/
def pyNorm (s : String) : String :=
  pyLower (pyStrip s)

/-- Is `pre` a prefix of `l`? -/
def listHasPre (pre l : List Char) : Bool :=
  match pre, l with
  | [], _ => true
  | _ :: _, [] => false
  | a :: as, b :: bs => a == b && listHasPre as bs

/-- Does `l` contain `needle` as a contiguous sublist? -/
def listHasSub (needle : List Char) : List Char → Bool
  | [] => listHasPre needle []
  | c :: cs => listHasPre needle (c :: cs) || listHasSub needle cs

/-- Python `needle in hay` on strings. -/
def containsSub (hay needle : String) : Bool :=
  listHasSub needle.data hay.data

/-! ## External events and console input -/

/-- One external event performed by a script: opening or closing a
database connection, issuing a SQL command, or showing a prompt. -/
inductive Ev where
  | openConn (database : String)
  | closeConn
  | exec (sqlText : String)
  | prompt (message : String)
  deriving DecidableEq, Repr

/-- Result of one `input()` call: a line of text, or KeyboardInterrupt. -/
inductive PromptIn where
  | answer (line : String)
  | interrupt
  deriving DecidableEq, Repr

/-- Outcome of a phase that contains an `input()` call: either the
KeyboardInterrupt escaped (carrying the events performed so far), or the
function returned with its trace, printed lines and boolean result. -/
inductive PhaseOut where
  | thrown (trace : List Ev)
  | ret (trace : List Ev) (out : List String) (ok : Bool)
  deriving DecidableEq, Repr

/-- How a process terminates: `sys.exit code`, or an uncaught
KeyboardInterrupt propagating out of `main` (abnormal termination,
never reported as exit status 0 by the interpreter). -/
inductive ExitOutcome where
  | exit (code : Nat)
  | uncaughtInterrupt
  deriving DecidableEq, Repr

/-! ## load.py : configuration and SQL text -/

/-- `DB_CONFIG['database']` in both scripts. -/
def targetDB : String := "game_store"

/-- The fixed ordered script list `SQL_SCRIPTS` of load.py. -/
def SQL_SCRIPTS : List String :=
  [ "01_schema.sql", "02_seed.sql", "03_views.sql",
    "04_functions.sql", "05_triggers.sql", "06_indexes.sql" ]

/-- The existence check issued by `create_database`. -/
def existsSQL : String :=
  "SELECT 1 FROM pg_database WHERE datname = %s"

/-- The terminate-other-backends statement of the drop branch. -/
def terminateSQL : String :=
  "SELECT pg_terminate_backend(pg_stat_activity.pid) FROM pg_stat_activity WHERE pg_stat_activity.datname = game_store AND pid <> pg_backend_pid()"

/-- `DROP DATABASE game_store`. -/
def dropSQL : String := "DROP DATABASE game_store"

/-- `CREATE DATABASE game_store`. -/
def createSQL : String := "CREATE DATABASE game_store"

/-! ## load.py : create_database -/

/-- Environment for `create_database`: the outcome of each external call
it can make, in source order. -/
structure CreateDBEnv where
  connectAdmin : Except String Unit
  existsCheck : Except String Bool
  promptIn : PromptIn
  termRes : Except String Unit
  dropRes : Except String Unit
  createRes : Except String Unit
  deriving Repr

/-- The error line printed by the `except psycopg2.Error` clause. -/
def createErrLine (e : String) : String :=
  "   ERROR: Failed to create database: " ++ e

/-- The drop-and-recreate confirmation prompt text. -/
def dropPromptMsg : String := "   Drop and recreate? (y/N): "

/-- `create_database()` of load.py: connect to the administrative
`postgres` database, check whether `game_store` exists, and create /
interactively drop-and-recreate it.  Any `psycopg2.Error` is caught and
yields `False`; a KeyboardInterrupt at the prompt escapes. -/
def create_database (env : CreateDBEnv) : PhaseOut :=
  match env.connectAdmin with
  | .error e => .ret [] [createErrLine e] false
  | .ok _ =>
    match env.existsCheck with
    | .error e =>
        .ret [.openConn "postgres", .exec existsSQL] [createErrLine e] false
    | .ok true =>
      let t0 : List Ev :=
        [.openConn "postgres", .exec existsSQL, .prompt dropPromptMsg]
      let existsLine := "   Database game_store already exists."
      match env.promptIn with
      | .interrupt => .thrown t0
      | .answer line =>
        if pyNorm line == "y" then
          match env.termRes with
          | .error e =>
              .ret (t0 ++ [.exec terminateSQL]) [existsLine, createErrLine e] false
          | .ok _ =>
            match env.dropRes with
            | .error e =>
                .ret (t0 ++ [.exec terminateSQL, .exec dropSQL])
                  [existsLine, createErrLine e] false
            | .ok _ =>
              match env.createRes with
              | .error e =>
                  .ret (t0 ++ [.exec terminateSQL, .exec dropSQL, .exec createSQL])
                    [existsLine, "   Dropped existing database game_store",
                     createErrLine e] false
              | .ok _ =>
                  .ret (t0 ++ [.exec terminateSQL, .exec dropSQL, .exec createSQL,
                        .closeConn])
                    [existsLine, "   Dropped existing database game_store",
                     "   Created database game_store"] true
        else
          .ret (t0 ++ [.closeConn]) [existsLine, "   Using existing database."] true
    | .ok false =>
      match env.createRes with
      | .error e =>
          .ret [.openConn "postgres", .exec existsSQL, .exec createSQL]
            [createErrLine e] false
      | .ok _ =>
          .ret [.openConn "postgres", .exec existsSQL, .exec createSQL, .closeConn]
            [ "   Created database game_store" ] true

/-! ## load.py : run_sql_script and run_sql_scripts -/

/-- Outcome of one script file, supplied by the environment: the file
was read and executed successfully, the file was missing
(`FileNotFoundError`, before any execution), the execution raised a
`psycopg2.Error`, or some other exception was raised by execution. -/
inductive ScriptRes where
  | ok
  | missing
  | sqlErr (e : String)
  | otherErr (e : String)
  deriving DecidableEq, Repr

/-- `run_sql_script(cursor, script_path, script_name)`: printed lines and
boolean result for one script, given its outcome. -/
def run_sql_script (name : String) (res : ScriptRes) : List String × Bool :=
  match res with
  | .ok => ([ "   OK " ++ name ++ " executed successfully" ], true)
  | .missing => ([ "   ERROR: File not found: " ++ name ], false)
  | .sqlErr e => ([ "   ERROR executing " ++ name ++ ":", "      " ++ e ], false)
  | .otherErr e => ([ "   UNEXPECTED ERROR with " ++ name ++ ":", "      " ++ e ], false)

/-- The `exec` events performed for one script: none when the file was
missing (the read fails before `cursor.execute`), one otherwise. -/
def scriptEvents (name : String) (res : ScriptRes) : List Ev :=
  match res with
  | .missing => []
  | _ => [.exec name]

/-- Environment for `run_sql_scripts`. -/
structure ScriptsEnv where
  sqlDirOk : Bool
  connectMain : Except String Unit
  outcome : String → ScriptRes

/-- The `for script_name in SQL_SCRIPTS` loop body of `run_sql_scripts`:
run each script in order, stopping (and closing the connection) at the
first failure; close the connection after the last script on success. -/
def scriptsLoop (outcome : String → ScriptRes) : List String → List Ev × List String × Bool
  | [] => ([.closeConn], [], true)
  | n :: rest =>
    let r := outcome n
    let (o1, ok1) := run_sql_script n r
    if ok1 then
      let (t, o, b) := scriptsLoop outcome rest
      (scriptEvents n r ++ t, ( "   Running " ++ n ++ "...") :: (o1 ++ o), b)
    else
      (scriptEvents n r ++ [.closeConn],
       ( "   Running " ++ n ++ "...") :: (o1 ++ [ "   Stopping due to error." ]), false)

/-- `run_sql_scripts()` of load.py. -/
def run_sql_scripts (env : ScriptsEnv) : List Ev × List String × Bool :=
  if env.sqlDirOk then
    match env.connectMain with
    | .error e => ([], [ "   ERROR: Database connection failed: " ++ e ], false)
    | .ok _ =>
      let (t, o, b) := scriptsLoop env.outcome SQL_SCRIPTS
      (.openConn targetDB :: t, o, b)
  else ([], [ "   ERROR: SQL directory not found" ], false)

/-! ## load.py : verify_installation -/

/-- The fixed list `tables_to_check` of verify_installation:
(table name, display name). -/
def tables_to_check : List (String × String) :=
  [ ("games", "Games"), ("products", "Products"), ("customers", "Customers"),
    ("orders", "Orders"), ("employees", "Employees"), ("stores", "Stores"),
    ("inventory", "Inventory records") ]

/-- The row-count query issued per table. -/
def countSQL (table : String) : String :=
  "SELECT COUNT(*) FROM " ++ table

/-- Environment for `verify_installation`: outcomes of the connection,
the four catalog count queries, and the per-table row counts. -/
structure VerifyEnv where
  connectMain : Except String Unit
  tableCount : Except String Nat
  viewCount : Except String Nat
  functionCount : Except String Nat
  triggerCount : Except String Nat
  rowCount : String → Except String Nat

/-- The verification error line. -/
def verifyErrLine (e : String) : String :=
  "   ERROR: Verification failed: " ++ e

/-- The `for table_name, display_name in tables_to_check` loop of
verify_installation. -/
def verifyTablesLoop (rowCount : String → Except String Nat) :
    List (String × String) → List Ev × List String × Bool
  | [] => ([], [], true)
  | (tn, dn) :: rest =>
    match rowCount tn with
    | .error e => ([.exec (countSQL tn)], [verifyErrLine e], false)
    | .ok c =>
      let (t, o, b) := verifyTablesLoop rowCount rest
      (.exec (countSQL tn) :: t, ( "   - " ++ dn ++ ": " ++ toString c) :: o, b)

/-- The four catalog count queries of verify_installation, abbreviated. -/
def tableCountSQL : String :=
  "SELECT COUNT(*) FROM information_schema.tables WHERE table_schema = public AND table_type = BASE TABLE"

/-- Catalog view count query. -/
def viewCountSQL : String :=
  "SELECT COUNT(*) FROM information_schema.views WHERE table_schema = public"

/-- Catalog function count query. -/
def functionCountSQL : String :=
  "SELECT COUNT(*) FROM pg_proc p JOIN pg_namespace n ON p.pronamespace = n.oid WHERE n.nspname = public AND p.prokind = f"

/-- Catalog trigger count query. -/
def triggerCountSQL : String :=
  "SELECT COUNT(DISTINCT trigger_name) FROM information_schema.triggers WHERE trigger_schema = public"

/-- `verify_installation()` of load.py: count tables, views, functions,
triggers, then the rows of each expected table; any `psycopg2.Error`
yields `False` (connection left to the interpreter on that path). -/
def verify_installation (env : VerifyEnv) : List Ev × List String × Bool :=
  match env.connectMain with
  | .error e => ([], [verifyErrLine e], false)
  | .ok _ =>
    let t0 : List Ev := [.openConn targetDB, .exec tableCountSQL]
    match env.tableCount with
    | .error e => (t0, [verifyErrLine e], false)
    | .ok tc =>
      let l1 := "   Tables created: " ++ toString tc
      match env.viewCount with
      | .error e => (t0 ++ [.exec viewCountSQL], [l1, verifyErrLine e], false)
      | .ok vc =>
        let l2 := "   Views created: " ++ toString vc
        match env.functionCount with
        | .error e =>
            (t0 ++ [.exec viewCountSQL, .exec functionCountSQL],
             [l1, l2, verifyErrLine e], false)
        | .ok fc =>
          let l3 := "   Functions created: " ++ toString fc
          match env.triggerCount with
          | .error e =>
              (t0 ++ [.exec viewCountSQL, .exec functionCountSQL, .exec triggerCountSQL],
               [l1, l2, l3, verifyErrLine e], false)
          | .ok trc =>
            let l4 := "   Triggers created: " ++ toString trc
            let (t, o, b) := verifyTablesLoop env.rowCount tables_to_check
            (t0 ++ [.exec viewCountSQL, .exec functionCountSQL, .exec triggerCountSQL]
               ++ t ++ (if b then [.closeConn] else []),
             [l1, l2, l3, l4] ++ o, b)

/-! ## load.py : main -/

/-- Environment for the whole loader run: the initial
press-Enter-to-continue `input()`, then the environments of the three
phases. -/
structure LoadEnv where
  startIn : PromptIn
  cEnv : CreateDBEnv
  sEnv : ScriptsEnv
  vEnv : VerifyEnv

/-- `main()` of load.py: initial prompt (KeyboardInterrupt caught, exit
0), then create_database, run_sql_scripts, verify_installation, exiting
1 at the first failing phase and 0 after full success.  A
KeyboardInterrupt at the drop-and-recreate prompt inside
create_database is not caught anywhere and propagates out of main. -/
def loadMain (env : LoadEnv) : List Ev × ExitOutcome :=
  match env.startIn with
  | .interrupt => ([], .exit 0)
  | .answer _ =>
    match create_database env.cEnv with
    | .thrown t => (t, .uncaughtInterrupt)
    | .ret t _ false => (t, .exit 1)
    | .ret t _ true =>
      let (t2, _, ok2) := run_sql_scripts env.sEnv
      if ok2 then
        let (t3, _, ok3) := verify_installation env.vEnv
        (t ++ t2 ++ t3, .exit (if ok3 then 0 else 1))
      else (t ++ t2, .exit 1)

/-! ## explain.py : query descriptors -/

/-- One entry of `QUERIES_TO_ANALYZE`: name, description, SQL text. -/
structure QueryInfo where
  name : String
  description : String
  query : String
  deriving DecidableEq, Repr

/-- The fixed in-memory list `QUERIES_TO_ANALYZE` of explain.py.  The
SQL text of each query is abbreviated to one recognizable line (quoted
SQL string literals elided); the claims depend only on the identity of
each text and on the list structure. -/
def QUERIES_TO_ANALYZE : List QueryInfo :=
  [ ⟨ "Game Catalog Lookup by Platform",
      "Browsing games for a specific platform with ratings",
      "SELECT g.title, g.base_price, g.esrb_rating, STRING_AGG(...), ROUND(AVG(r.rating), 2) FROM games g JOIN platforms p ... WHERE p.platform_name = PlayStation 5 AND g.is_active = true GROUP BY ... ORDER BY avg_rating DESC NULLS LAST" ⟩,
    ⟨ "Inventory Check Across Stores",
      "Finding which stores have a specific game in stock",
      "SELECT s.store_name, s.city, i.quantity FROM stores s LEFT JOIN inventory i ... WHERE s.is_active = true ORDER BY i.quantity DESC NULLS LAST" ⟩,
    ⟨ "Best Sellers Report",
      "Finding top-selling games by revenue",
      "SELECT g.title, p.platform_name, SUM(oi.quantity), SUM(oi.line_total) FROM order_items oi ... GROUP BY ... ORDER BY total_revenue DESC LIMIT 10" ⟩,
    ⟨ "Customer Lifetime Value",
      "Calculating top customers by total spending",
      "SELECT c.customer_id, ..., COUNT(DISTINCT o.order_id), SUM(o.total_amount) FROM customers c JOIN orders o ... GROUP BY ... ORDER BY lifetime_value DESC LIMIT 20" ⟩,
    ⟨ "Store Performance Comparison",
      "Comparing sales metrics across stores",
      "SELECT s.store_name, COUNT(DISTINCT o.order_id), SUM(o.total_amount), ROUND(AVG(o.total_amount), 2) FROM stores s LEFT JOIN orders o ... GROUP BY ... ORDER BY total_revenue DESC NULLS LAST" ⟩,
    ⟨ "Low Stock Items Report",
      "Finding items that need reordering",
      "SELECT s.store_name, COALESCE(g.title, pr.product_name), i.quantity, i.reorder_level FROM inventory i ... WHERE i.quantity <= i.reorder_level ORDER BY i.quantity ASC" ⟩ ]

/-! ## explain.py : analyze_query -/

/-- The EXPLAIN wrapping applied to each analyzed query. -/
def explainSQL (q : QueryInfo) : String :=
  "EXPLAIN (ANALYZE, BUFFERS, VERBOSE) " ++ q.query

/-- The `if / elif / elif` chain of the key-metrics re-scan: the line is
reprinted (stripped, two-space indented) when it contains one of the
three markers. -/
def keyMetricLine (line : String) : Option String :=
  if containsSub line "Planning Time:" then some ( "  " ++ pyStrip line)
  else if containsSub line "Execution Time:" then some ( "  " ++ pyStrip line)
  else if containsSub line "Buffers:" then some ( "  " ++ pyStrip line)
  else none

/-- Does the line contain one of the three timing/buffer markers? -/
def hasMarker (line : String) : Bool :=
  containsSub line "Planning Time:" || containsSub line "Execution Time:" ||
    containsSub line "Buffers:"

/-- The section-header lines printed before the plan. -/
def analyzePre (q : QueryInfo) : List String :=
  [ "Query: " ++ q.name, "Description: " ++ q.description,
    "Execution Plan:" ]

/-- The lines printed between the verbatim plan echo and the re-scan. -/
def analyzeMid : List String := [ "Key Metrics:" ]

/-- `analyze_query(cursor, query_info)` of explain.py: execute the
EXPLAIN-wrapped query, print every returned plan line verbatim in
order, then reprint the marker lines; a `psycopg2.Error` is caught and
yields `False`. -/
def analyze_query (planRes : String → Except String (List String)) (q : QueryInfo) :
    List Ev × List String × Bool :=
  match planRes (explainSQL q) with
  | .error e =>
      ([.exec (explainSQL q)],
       analyzePre q ++ [ "ERROR: Query analysis failed", "  " ++ e], false)
  | .ok rows =>
      ([.exec (explainSQL q)],
       analyzePre q ++ rows ++ analyzeMid ++ rows.filterMap keyMetricLine, true)

/-! ## explain.py : run_simple_benchmark -/

/-- The benchmark loop `for i in range(iterations)`: execute the raw
query, timing each run; a `psycopg2.Error` aborts the loop.  Returns the
events performed, the samples collected (the `times` list), and whether
all runs succeeded.  `time i` is the wall-clock duration of run `i`
supplied by the environment, in milliseconds. -/
def benchLoop (qsql : String) (time : Nat → Except String ℚ) :
    Nat → Nat → List Ev × List ℚ × Bool
  | _, 0 => ([], [], true)
  | i, k + 1 =>
    match time i with
    | .error _ => ([.exec qsql], [], false)
    | .ok t =>
      let (evs, ts, b) := benchLoop qsql time (i + 1) k
      (.exec qsql :: evs, t :: ts, b)

/-- Python `min` over a nonempty list (`min([])` is unreachable here). -/
def pyMin : List ℚ → ℚ
  | [] => 0
  | x :: xs => xs.foldl min x

/-- Python `max` over a nonempty list. -/
def pyMax : List ℚ → ℚ
  | [] => 0
  | x :: xs => xs.foldl max x

/-- `sum(times) / len(times)`. -/
def pyAvg (l : List ℚ) : ℚ :=
  l.sum / (l.length : ℚ)

/-- Result of `run_simple_benchmark`: the events performed, the timing
samples reported (one `Run i: ... ms` line each), the
(average, minimum, maximum) statistics printed on success, and the
boolean result. -/
structure BenchOut where
  trace : List Ev
  samples : List ℚ
  stats : Option (ℚ × ℚ × ℚ)
  ok : Bool
  deriving DecidableEq, Repr

/-- `run_simple_benchmark(cursor, query_info, iterations)`: run the raw
query `iterations` times; on success print and summarize the collected
times, on a `psycopg2.Error` report the failure and return `False`. -/
def run_simple_benchmark (q : QueryInfo) (time : Nat → Except String ℚ)
    (iterations : Nat) : BenchOut :=
  let (evs, ts, b) := benchLoop q.query time 0 iterations
  if b then ⟨evs, ts, some (pyAvg ts, pyMin ts, pyMax ts), true⟩
  else ⟨evs, ts, none, false⟩

/-! ## explain.py : index usage statistics -/

/-- One row of `pg_stat_user_indexes` as selected by the stats query. -/
structure IndexStatRow where
  schemaname : String
  tablename : String
  indexname : String
  idx_scan : Nat
  idx_tup_read : Nat
  idx_tup_fetch : Nat
  deriving DecidableEq, Repr

/-- Scan-count-descending comparison used by `ORDER BY idx_scan DESC`. -/
def idxScanGE (a b : IndexStatRow) : Prop :=
  b.idx_scan ≤ a.idx_scan

instance : DecidableRel idxScanGE := fun _ _ => Nat.decLe _ _

instance : IsTotal IndexStatRow idxScanGE := ⟨fun a b => Nat.le_total b.idx_scan a.idx_scan⟩

instance : IsTrans IndexStatRow idxScanGE :=
  ⟨fun _ _ _ h1 h2 => Nat.le_trans h2 h1⟩

/-- Semantics of the fixed stats SQL of `get_index_usage_stats`
(`WHERE schemaname = public ORDER BY idx_scan DESC LIMIT 20`) applied to
the statistics table held by the database engine. -/
def indexQueryRows (stats : List IndexStatRow) : List IndexStatRow :=
  (List.insertionSort idxScanGE (stats.filter (fun r => r.schemaname == "public"))).take 20

/-- Formatting of one data row of the index-usage report (the source
truncates the table name to 19 and the index name to 34 characters). -/
def fmtIdxRow (r : IndexStatRow) : String :=
  String.mk (r.tablename.data.take 19) ++ " " ++ String.mk (r.indexname.data.take 34)
    ++ " " ++ toString r.idx_scan ++ " " ++ toString r.idx_tup_read ++ " "
    ++ toString r.idx_tup_fetch

/-- The index-usage stats SQL, abbreviated. -/
def idxStatsSQL : String :=
  "SELECT schemaname, tablename, indexname, idx_scan, idx_tup_read, idx_tup_fetch FROM pg_stat_user_indexes WHERE schemaname = public ORDER BY idx_scan DESC LIMIT 20"

/-- `get_index_usage_stats(cursor)` of explain.py: issue the stats
query; print a header and one line per returned row, or a notice when
no rows came back; errors are caught and yield `False`. -/
def get_index_usage_stats (idxErr : Option String) (stats : List IndexStatRow) :
    List Ev × List String × Bool :=
  match idxErr with
  | some e => ([.exec idxStatsSQL], [ "ERROR: Failed to retrieve index stats", "  " ++ e], false)
  | none =>
    let rows := indexQueryRows stats
    if rows.isEmpty then
      ([.exec idxStatsSQL], [ "No index usage data available yet. Run some queries first." ], true)
    else
      ([.exec idxStatsSQL],
       "Table Index Scans Tuples Read Tuples Fetched" :: rows.map fmtIdxRow, true)

/-! ## explain.py : table sizes -/

/-- One row of `pg_tables` with the computed size columns; sizes in
bytes as returned by `pg_total_relation_size` / `pg_relation_size`. -/
structure TableSizeRow where
  schemaname : String
  tablename : String
  totalSize : Nat
  tableSize : Nat
  deriving DecidableEq, Repr

/-- Total-size-descending comparison used by the `ORDER BY ... DESC`. -/
def totalSizeGE (a b : TableSizeRow) : Prop :=
  b.totalSize ≤ a.totalSize

instance : DecidableRel totalSizeGE := fun _ _ => Nat.decLe _ _

instance : IsTotal TableSizeRow totalSizeGE := ⟨fun a b => Nat.le_total b.totalSize a.totalSize⟩

instance : IsTrans TableSizeRow totalSizeGE :=
  ⟨fun _ _ _ h1 h2 => Nat.le_trans h2 h1⟩

/-- Semantics of the fixed size SQL of `get_table_sizes`
(`WHERE schemaname = public ORDER BY pg_total_relation_size(...) DESC
LIMIT 15`). -/
def tableSizeRows (tables : List TableSizeRow) : List TableSizeRow :=
  (List.insertionSort totalSizeGE (tables.filter (fun r => r.schemaname == "public"))).take 15

/-- The table-size SQL, abbreviated. -/
def tableSizesSQL : String :=
  "SELECT tablename, pg_size_pretty(pg_total_relation_size(...)), pg_size_pretty(pg_relation_size(...)), pg_size_pretty(... - ...) FROM pg_tables WHERE schemaname = public ORDER BY pg_total_relation_size(...) DESC LIMIT 15"

/-- Formatting of one data row of the size report. -/
def fmtSizeRow (r : TableSizeRow) : String :=
  r.tablename ++ " " ++ toString r.totalSize ++ " " ++ toString r.tableSize ++ " "
    ++ toString (r.totalSize - r.tableSize)

/-- `get_table_sizes(cursor)` of explain.py. -/
def get_table_sizes (sizeErr : Option String) (tables : List TableSizeRow) :
    List Ev × List String × Bool :=
  match sizeErr with
  | some e => ([.exec tableSizesSQL], [ "ERROR: Failed to retrieve table sizes", "  " ++ e], false)
  | none =>
    ([.exec tableSizesSQL],
     "Table Total Size Table Size Indexes Size" :: (tableSizeRows tables).map fmtSizeRow,
     true)

/-! ## explain.py : main -/

/-- The run-benchmarks confirmation prompt text. -/
def benchPromptMsg : String := "Run query benchmarks? (y/N): "

/-- Environment for the analyzer run. -/
structure ExplainEnv where
  connectRes : Except String Unit
  planRes : String → Except String (List String)
  idxErr : Option String
  idxStats : List IndexStatRow
  sizeErr : Option String
  sizeStats : List TableSizeRow
  benchIn : PromptIn
  benchTime : Nat → Nat → Except String ℚ

/-- The events of the `for i, query_info in enumerate(QUERIES_TO_ANALYZE)`
analysis loop: every query is analyzed unconditionally. -/
def analyzeAllTrace (planRes : String → Except String (List String))
    (qs : List QueryInfo) : List Ev :=
  (qs.map (fun q => (analyze_query planRes q).1)).flatten

/-- The events of the benchmark loop (`iterations=5` per query);
`benchTime i j` is the duration of run `j` of query `i`. -/
def benchAll (benchTime : Nat → Nat → Except String ℚ) :
    Nat → List QueryInfo → List Ev
  | _, [] => []
  | i, q :: rest =>
      (run_simple_benchmark q (benchTime i) 5).trace ++ benchAll benchTime (i + 1) rest

/-- The events of `main()` of explain.py up to the benchmark prompt:
open the single connection, analyze every query, print the index-usage
report, print the size report, show the prompt. -/
def explainPreTrace (env : ExplainEnv) : List Ev :=
  .openConn targetDB ::
    (analyzeAllTrace env.planRes QUERIES_TO_ANALYZE
      ++ (get_index_usage_stats env.idxErr env.idxStats).1
      ++ (get_table_sizes env.sizeErr env.sizeStats).1)
    ++ [Ev.prompt benchPromptMsg]

/-- `main()` of explain.py: connect (failure prints and exits 1);
analyze every query; print the index-usage and size reports; optionally
benchmark every query after a confirmation prompt; close the connection
and fall off the end (exit status 0).  Both a KeyboardInterrupt inside
the `try` (modelled at the prompt) and the normal end exit with 0. -/
def explainMain (env : ExplainEnv) : List Ev × ExitOutcome :=
  match env.connectRes with
  | .error _ => ([], .exit 1)
  | .ok _ =>
    match env.benchIn with
    | .interrupt => (explainPreTrace env, .exit 0)
    | .answer line =>
      if pyNorm line == "y" then
        (explainPreTrace env ++ benchAll env.benchTime 0 QUERIES_TO_ANALYZE
          ++ [.closeConn], .exit 0)
      else (explainPreTrace env ++ [.closeConn], .exit 0)

/-! ## Connection accounting -/

/-- Step function of the connection-count automaton: `some c` is a valid
state with `c` connections currently open; opening is only valid with no
connection open (the ≤ 1 invariant), closing only with one open. -/
def connStep : Option Nat → Ev → Option Nat
  | none, _ => none
  | some c, .openConn _ => if c == 0 then some 1 else none
  | some c, .closeConn => if c == 1 then some 0 else none
  | some c, _ => some c

/-- Run the connection-count automaton over a trace. -/
def connRun (s : Option Nat) (t : List Ev) : Option Nat :=
  t.foldl connStep s

/-- Valid traces: starting from zero open connections, at every point at
most one connection is open and no close happens without an open. -/
def connCount (t : List Ev) : Option Nat :=
  connRun (some 0) t

/-- The destructive / database-mutating commands the loader can issue in
`create_database`; everything else it issues there is a read-only
catalog query, a prompt, or connection management. -/
def mutatingEv (e : Ev) : Bool :=
  match e with
  | .exec s => s == terminateSQL || s == dropSQL || s == createSQL
  | _ => false

/-- Is the event one of the loader's script-file executions?  In the
embedding the exec events of `run_sql_scripts` carry the script file
name; every other command the loader issues is a fixed catalog query,
a prompt, or connection management. -/
def isScriptExec (e : Ev) : Bool :=
  match e with
  | .exec s => SQL_SCRIPTS.contains s
  | _ => false

/-- Apply a trace of events to an abstract database-server state, the
effect of each event being given by `step`.  Used to express frame
properties: a trace of non-mutating events leaves any state unchanged. -/
def applyTrace {S : Type} (step : Ev → S → S) (t : List Ev) (st : S) : S :=
  t.foldl (fun s e => step e s) st

/-- Is the event a connection open or close? -/
def isConnEv : Ev → Bool
  | .openConn _ => true
  | .closeConn => true
  | _ => false

/-- The event trace of a phase outcome. -/
def PhaseOut.trace : PhaseOut → List Ev
  | .thrown t => t
  | .ret t _ _ => t

/-- The printed lines of a phase outcome (empty if it threw). -/
def PhaseOut.out : PhaseOut → List String
  | .thrown _ => []
  | .ret _ o _ => o

/-- The boolean result of a phase outcome (false if it threw). -/
def PhaseOut.okr : PhaseOut → Bool
  | .thrown _ => false
  | .ret _ _ b => b

/-! ## Helper lemmas -/

theorem keyMetricLine_eq (l : String) :
    keyMetricLine l = if hasMarker l then some ( "  " ++ pyStrip l) else none := by
  unfold keyMetricLine hasMarker
  by_cases h1 : containsSub l "Planning Time:" <;>
    by_cases h2 : containsSub l "Execution Time:" <;>
      by_cases h3 : containsSub l "Buffers:" <;> simp [h1, h2, h3]

theorem filterMap_keyMetricLine (rows : List String) :
    rows.filterMap keyMetricLine
      = (rows.filter hasMarker).map (fun l => "  " ++ pyStrip l) := by
  induction rows with
  | nil => rfl
  | cons a as ih => by_cases h : hasMarker a <;> simp [keyMetricLine_eq, h, ih]

theorem analyze_query_trace (planRes : String → Except String (List String))
    (q : QueryInfo) : (analyze_query planRes q).1 = [.exec (explainSQL q)] := by
  unfold analyze_query
  cases planRes (explainSQL q) <;> rfl

theorem analyzeAllTrace_mem (planRes : String → Except String (List String))
    (qs : List QueryInfo) (q : QueryInfo) (hq : q ∈ qs) :
    Ev.exec (explainSQL q) ∈ analyzeAllTrace planRes qs := by
  induction qs with
  | nil => cases hq
  | cons a as ih =>
    unfold analyzeAllTrace
    rcases List.mem_cons.mp hq with h | h
    · subst h
      simp [analyze_query_trace]
    · simpa [analyzeAllTrace] using Or.inr (ih h)

theorem benchLoop_ok (qsql : String) (time : Nat → Except String ℚ) :
    ∀ (k i : Nat), (∀ j, j < k → (time (i + j)).isOk = true) →
      ∃ ts, benchLoop qsql time i k = (List.replicate k (.exec qsql), ts, true)
        ∧ ts.length = k := by
  intro k
  induction k with
  | zero => intro i _; exact ⟨[], rfl, rfl⟩
  | succ k ih =>
    intro i h
    have h0 : (time i).isOk = true := by simpa using h 0 (Nat.succ_pos k)
    cases ht : time i with
    | error e => rw [ht] at h0; simp [Except.isOk, Except.toBool] at h0
    | ok t =>
      have hrest : ∀ j, j < k → (time (i + 1 + j)).isOk = true := by
        intro j hj
        have := h (j + 1) (by omega)
        rwa [show i + (j + 1) = i + 1 + j by omega] at this
      obtain ⟨ts, hb, hlen⟩ := ih (i + 1) hrest
      refine ⟨t :: ts, ?_, by simp [hlen]⟩
      unfold benchLoop
      rw [ht, hb]
      simp [List.replicate_succ]

theorem foldl_min_le (xs : List ℚ) : ∀ x : ℚ, xs.foldl min x ≤ x := by
  induction xs with
  | nil => intro x; exact le_refl x
  | cons a as ih => intro x; exact le_trans (ih (min x a)) (min_le_left x a)

theorem foldl_min_le_mem (xs : List ℚ) : ∀ x y : ℚ, y ∈ xs → xs.foldl min x ≤ y := by
  induction xs with
  | nil => intro x y hy; cases hy
  | cons a as ih =>
    intro x y hy
    rcases List.mem_cons.mp hy with h | h
    · subst h; exact le_trans (foldl_min_le as (min x y)) (min_le_right x y)
    · exact ih (min x a) y h

theorem le_foldl_max (xs : List ℚ) : ∀ x : ℚ, x ≤ xs.foldl max x := by
  induction xs with
  | nil => intro x; exact le_refl x
  | cons a as ih => intro x; exact le_trans (le_max_left x a) (ih (max x a))

theorem mem_le_foldl_max (xs : List ℚ) : ∀ x y : ℚ, y ∈ xs → y ≤ xs.foldl max x := by
  induction xs with
  | nil => intro x y hy; cases hy
  | cons a as ih =>
    intro x y hy
    rcases List.mem_cons.mp hy with h | h
    · subst h; exact le_trans (le_max_right x y) (le_foldl_max as (max x y))
    · exact ih (max x a) y h

theorem pyMin_le_mem (l : List ℚ) : ∀ y ∈ l, pyMin l ≤ y := by
  cases l with
  | nil => intro y hy; cases hy
  | cons x xs =>
    intro y hy
    rcases List.mem_cons.mp hy with h | h
    · subst h; exact foldl_min_le xs y
    · exact foldl_min_le_mem xs x y h

theorem mem_le_pyMax (l : List ℚ) : ∀ y ∈ l, y ≤ pyMax l := by
  cases l with
  | nil => intro y hy; cases hy
  | cons x xs =>
    intro y hy
    rcases List.mem_cons.mp hy with h | h
    · subst h; exact le_foldl_max xs y
    · exact mem_le_foldl_max xs x y h

theorem length_mul_le_sum (l : List ℚ) (m : ℚ) (h : ∀ y ∈ l, m ≤ y) :
    (l.length : ℚ) * m ≤ l.sum := by
  induction l with
  | nil => simp
  | cons a as ih =>
    have h1 : m ≤ a := h a (List.mem_cons_self a as)
    have h2 := ih (fun y hy => h y (List.mem_cons_of_mem a hy))
    simp only [List.length_cons, List.sum_cons]
    push_cast
    nlinarith

theorem sum_le_length_mul (l : List ℚ) (m : ℚ) (h : ∀ y ∈ l, y ≤ m) :
    l.sum ≤ (l.length : ℚ) * m := by
  induction l with
  | nil => simp
  | cons a as ih =>
    have h1 : a ≤ m := h a (List.mem_cons_self a as)
    have h2 := ih (fun y hy => h y (List.mem_cons_of_mem a hy))
    simp only [List.length_cons, List.sum_cons]
    push_cast
    nlinarith

theorem pyMin_le_pyAvg (l : List ℚ) (hl : l ≠ []) : pyMin l ≤ pyAvg l := by
  have hpos : (0 : ℚ) < (l.length : ℚ) := by
    exact_mod_cast List.length_pos.mpr hl
  rw [pyAvg, le_div_iff₀ hpos]
  have := length_mul_le_sum l (pyMin l) (pyMin_le_mem l)
  linarith [this]

theorem pyAvg_le_pyMax (l : List ℚ) (hl : l ≠ []) : pyAvg l ≤ pyMax l := by
  have hpos : (0 : ℚ) < (l.length : ℚ) := by
    exact_mod_cast List.length_pos.mpr hl
  rw [pyAvg, div_le_iff₀ hpos]
  have := sum_le_length_mul l (pyMax l) (mem_le_pyMax l)
  linarith [this]

/-! ## Claims -/

/-- Claim C7: for every query, analyze_query wraps the query text in an
EXPLAIN directive with timing and buffers, prints every returned plan
line verbatim in order, then reprints exactly those plan lines
containing one of the timing/buffer markers (Planning Time:, Execution
Time:, Buffers:) as a key-metrics subsection (stripped and indented),
and returns a success flag. -/
theorem claim_C7 (planRes : String → Except String (List String)) (q : QueryInfo)
    (rows : List String) (h : planRes (explainSQL q) = .ok rows) :
    analyze_query planRes q =
      ([.exec (explainSQL q)],
       analyzePre q ++ rows ++ analyzeMid
         ++ (rows.filter hasMarker).map (fun l => "  " ++ pyStrip l),
       true) := by
  have hok : analyze_query planRes q =
      ([.exec (explainSQL q)],
       analyzePre q ++ rows ++ analyzeMid ++ rows.filterMap keyMetricLine, true) := by
    unfold analyze_query
    rw [h]
  rw [hok, filterMap_keyMetricLine]

/-- Witness for C7 at a concrete query and plan. -/
theorem claim_C7_witness :
    analyze_query (fun _ => .ok [ "Seq Scan on games", " Planning Time: 1 ms" ])
        ⟨ "q", "d", "SELECT 1" ⟩ =
      ([.exec (explainSQL ⟨ "q", "d", "SELECT 1" ⟩)],
       analyzePre ⟨ "q", "d", "SELECT 1" ⟩
         ++ [ "Seq Scan on games", " Planning Time: 1 ms" ] ++ analyzeMid
         ++ ([ "Seq Scan on games", " Planning Time: 1 ms" ].filter hasMarker).map
              (fun l => "  " ++ pyStrip l),
       true) :=
  claim_C7 (fun _ => .ok [ "Seq Scan on games", " Planning Time: 1 ms" ])
    ⟨ "q", "d", "SELECT 1" ⟩ [ "Seq Scan on games", " Planning Time: 1 ms" ] rfl

/-- Claim C3: a database error while analyzing a query makes
analyze_query report the error and return a failure flag (no exception
escapes: the embedding is total and returns `false`), and the main loop
analyzes every query of the fixed list regardless of such failures. -/
theorem claim_C3 :
    (∀ (planRes : String → Except String (List String)) (q : QueryInfo) (e : String),
        planRes (explainSQL q) = .error e →
          (analyze_query planRes q).2.2 = false ∧
            ( "  " ++ e) ∈ (analyze_query planRes q).2.1) ∧
    (∀ env : ExplainEnv, env.connectRes = .ok () →
        ∀ q ∈ QUERIES_TO_ANALYZE, Ev.exec (explainSQL q) ∈ (explainMain env).1) := by
  constructor
  · intro planRes q e h
    have herr : analyze_query planRes q =
        ([.exec (explainSQL q)],
         analyzePre q ++ [ "ERROR: Query analysis failed", "  " ++ e], false) := by
      unfold analyze_query
      rw [h]
    rw [herr]
    exact ⟨rfl, by simp⟩
  · intro env hconn q hq
    have hmem : Ev.exec (explainSQL q) ∈ explainPreTrace env := by
      have h1 := analyzeAllTrace_mem env.planRes QUERIES_TO_ANALYZE q hq
      unfold explainPreTrace
      simp [h1]
    unfold explainMain
    rw [hconn]
    cases hb : env.benchIn with
    | interrupt => simpa using hmem
    | answer line =>
      by_cases hy : (pyNorm line == "y") = true <;> simp [hy, hmem]

/-- Witness for C3: a plan error on the first query is reported with a
`false` flag, and with the connection up every query of the fixed list
is still analyzed. -/
theorem claim_C3_witness :
    ((analyze_query (fun _ => .error "syntax error") ⟨ "q", "d", "SELECT 1" ⟩).2.2 = false
      ∧ ( "  " ++ "syntax error")
          ∈ (analyze_query (fun _ => .error "syntax error") ⟨ "q", "d", "SELECT 1" ⟩).2.1) ∧
    (∀ q ∈ QUERIES_TO_ANALYZE,
      Ev.exec (explainSQL q) ∈
        (explainMain ⟨.ok (), fun _ => .error "syntax error", none, [], none, [],
          .answer "", fun _ _ => .ok 1⟩).1) :=
  ⟨claim_C3.1 (fun _ => .error "syntax error") ⟨ "q", "d", "SELECT 1" ⟩ "syntax error" rfl,
   claim_C3.2 ⟨.ok (), fun _ => .error "syntax error", none, [], none, [],
      .answer "", fun _ _ => .ok 1⟩ rfl⟩

/-- Claim C4: run_simple_benchmark with iterations = 5 and all five
executions succeeding reports exactly 5 timing samples, and the
reported average lies in the closed interval between the reported
minimum and the reported maximum.  (A database error during a run
aborts the benchmark with a failure flag instead, per the spec.) -/
theorem claim_C4 (q : QueryInfo) (time : Nat → Except String ℚ)
    (h : ∀ j, j < 5 → (time j).isOk = true) :
    (run_simple_benchmark q time 5).samples.length = 5 ∧
    ∃ a m M, (run_simple_benchmark q time 5).stats = some (a, m, M)
      ∧ m ≤ a ∧ a ≤ M := by
  obtain ⟨ts, hb, hlen⟩ := benchLoop_ok q.query time 5 0 (by simpa using h)
  have hne : ts ≠ [] := by
    intro hnil; rw [hnil] at hlen; simp at hlen
  unfold run_simple_benchmark
  rw [hb]
  exact ⟨hlen, pyAvg ts, pyMin ts, pyMax ts, rfl,
    pyMin_le_pyAvg ts hne, pyAvg_le_pyMax ts hne⟩

/-- Witness for C4 at a constant 3 ms clock. -/
theorem claim_C4_witness :
    (run_simple_benchmark ⟨ "q", "d", "SELECT 1" ⟩ (fun _ => .ok 3) 5).samples.length = 5 ∧
    ∃ a m M,
      (run_simple_benchmark ⟨ "q", "d", "SELECT 1" ⟩ (fun _ => .ok 3) 5).stats = some (a, m, M)
        ∧ m ≤ a ∧ a ≤ M :=
  claim_C4 ⟨ "q", "d", "SELECT 1" ⟩ (fun _ => .ok 3) (fun _ _ => rfl)

/-- Claim C8: the index-usage report prints at most 20 rows ordered by
index scan count descending, and the table-size report prints at most
15 rows ordered by total relation size descending (one printed line per
returned row after the header). -/
theorem claim_C8 :
    (∀ stats : List IndexStatRow,
        (indexQueryRows stats).length ≤ 20
          ∧ List.Sorted idxScanGE (indexQueryRows stats)
          ∧ ((indexQueryRows stats).isEmpty = false →
              (get_index_usage_stats none stats).2.1 =
                "Table Index Scans Tuples Read Tuples Fetched"
                  :: (indexQueryRows stats).map fmtIdxRow)) ∧
    (∀ tables : List TableSizeRow,
        (tableSizeRows tables).length ≤ 15
          ∧ List.Sorted totalSizeGE (tableSizeRows tables)
          ∧ (get_table_sizes none tables).2.1 =
              "Table Total Size Table Size Indexes Size"
                :: (tableSizeRows tables).map fmtSizeRow) := by
  constructor
  · intro stats
    refine ⟨?_, ?_, ?_⟩
    · unfold indexQueryRows
      rw [List.length_take]
      exact min_le_left _ _
    · exact List.Pairwise.sublist (List.take_sublist _ _)
        (List.sorted_insertionSort idxScanGE _)
    · intro hne
      unfold get_index_usage_stats
      simp [hne]
  · intro tables
    refine ⟨?_, ?_, rfl⟩
    · unfold tableSizeRows
      rw [List.length_take]
      exact min_le_left _ _
    · exact List.Pairwise.sublist (List.take_sublist _ _)
        (List.sorted_insertionSort totalSizeGE _)

/-- Witness for C8 at a concrete two-row statistics table. -/
theorem claim_C8_witness :
    ((indexQueryRows [⟨ "public", "games", "idx_a", 5, 1, 1⟩,
        ⟨ "public", "games", "idx_b", 9, 2, 2⟩]).length ≤ 20
      ∧ List.Sorted idxScanGE (indexQueryRows [⟨ "public", "games", "idx_a", 5, 1, 1⟩,
          ⟨ "public", "games", "idx_b", 9, 2, 2⟩])
      ∧ (get_index_usage_stats none [⟨ "public", "games", "idx_a", 5, 1, 1⟩,
            ⟨ "public", "games", "idx_b", 9, 2, 2⟩]).2.1 =
          "Table Index Scans Tuples Read Tuples Fetched"
            :: (indexQueryRows [⟨ "public", "games", "idx_a", 5, 1, 1⟩,
                 ⟨ "public", "games", "idx_b", 9, 2, 2⟩]).map fmtIdxRow) ∧
    ((tableSizeRows [⟨ "public", "games", 100, 60⟩]).length ≤ 15
      ∧ List.Sorted totalSizeGE (tableSizeRows [⟨ "public", "games", 100, 60⟩])
      ∧ (get_table_sizes none [⟨ "public", "games", 100, 60⟩]).2.1 =
          "Table Total Size Table Size Indexes Size"
            :: (tableSizeRows [⟨ "public", "games", 100, 60⟩]).map fmtSizeRow) := by
  constructor
  · obtain ⟨h1, h2, h3⟩ := claim_C8.1 [⟨ "public", "games", "idx_a", 5, 1, 1⟩,
      ⟨ "public", "games", "idx_b", 9, 2, 2⟩]
    exact ⟨h1, h2, h3 (by decide)⟩
  · exact claim_C8.2 [⟨ "public", "games", 100, 60⟩]

theorem run_sql_script_ok_iff (n : String) (r : ScriptRes) :
    (run_sql_script n r).2 = true ↔ r = .ok := by
  cases r <;> simp [run_sql_script]

theorem scriptsLoop_cons_ok (outcome : String → ScriptRes) (n : String)
    (rest : List String) (h : outcome n = .ok) :
    scriptsLoop outcome (n :: rest) =
      (Ev.exec n :: (scriptsLoop outcome rest).1,
       ( "   Running " ++ n ++ "...")
         :: ( "   OK " ++ n ++ " executed successfully")
         :: (scriptsLoop outcome rest).2.1,
       (scriptsLoop outcome rest).2.2) := by
  simp [scriptsLoop, run_sql_script, scriptEvents, h]

theorem scriptsLoop_cons_fail (outcome : String → ScriptRes) (n : String)
    (rest : List String) (h : outcome n ≠ .ok) :
    scriptsLoop outcome (n :: rest) =
      (scriptEvents n (outcome n) ++ [Ev.closeConn],
       ( "   Running " ++ n ++ "...")
         :: ((run_sql_script n (outcome n)).1 ++ [ "   Stopping due to error." ]),
       false) := by
  cases hr : outcome n with
  | ok => exact absurd hr h
  | missing => simp [scriptsLoop, run_sql_script, scriptEvents, hr]
  | sqlErr e => simp [scriptsLoop, run_sql_script, scriptEvents, hr]
  | otherErr e => simp [scriptsLoop, run_sql_script, scriptEvents, hr]

theorem scriptsLoop_fail (outcome : String → ScriptRes) :
    ∀ (l : List String) (i : Nat) (hi : i < l.length),
      (∀ nm ∈ l.take i, outcome nm = .ok) →
      outcome (l.get ⟨i, hi⟩) ≠ .ok →
      (scriptsLoop outcome l).2.2 = false ∧
      (∀ e ∈ (scriptsLoop outcome l).1, e = Ev.closeConn ∨
         ∃ k, ∃ hk : k < l.length, k ≤ i ∧ e = Ev.exec (l.get ⟨k, hk⟩)) ∧
      (∀ s ∈ (run_sql_script (l.get ⟨i, hi⟩) (outcome (l.get ⟨i, hi⟩))).1,
         s ∈ (scriptsLoop outcome l).2.1) := by
  intro l
  induction l with
  | nil => intro i hi; exact absurd hi (by simp)
  | cons n rest ih =>
    intro i hi hok hfail
    cases i with
    | zero =>
      have h0 : outcome ((n :: rest).get ⟨0, hi⟩) = outcome n := rfl
      rw [h0] at hfail
      rw [scriptsLoop_cons_fail outcome n rest hfail]
      refine ⟨rfl, ?_, ?_⟩
      · intro e he
        simp only [List.mem_append] at he
        rcases he with he | he
        · cases hr : outcome n with
          | missing => rw [hr] at he; cases he
          | ok => exact absurd hr hfail
          | sqlErr a =>
            rw [hr] at he
            rcases List.mem_singleton.mp he with rfl
            exact Or.inr ⟨0, hi, Nat.le_refl 0, rfl⟩
          | otherErr a =>
            rw [hr] at he
            rcases List.mem_singleton.mp he with rfl
            exact Or.inr ⟨0, hi, Nat.le_refl 0, rfl⟩
        · rcases List.mem_singleton.mp he with rfl
          exact Or.inl rfl
      · intro s hs
        simp only [List.mem_cons, List.mem_append]
        exact Or.inr (Or.inl hs)
    | succ j =>
      have hj : j < rest.length := by
        simpa using Nat.lt_of_succ_lt_succ hi
      have hn : outcome n = .ok := by
        apply hok
        simp [List.take_succ_cons]
      have hok2 : ∀ nm ∈ rest.take j, outcome nm = .ok := by
        intro nm hnm
        apply hok
        simp [List.take_succ_cons, hnm]
      have hget : (n :: rest).get ⟨j + 1, hi⟩ = rest.get ⟨j, hj⟩ := rfl
      rw [hget] at hfail ⊢
      obtain ⟨ihb, ihe, ihs⟩ := ih j hj hok2 hfail
      rw [scriptsLoop_cons_ok outcome n rest hn]
      refine ⟨ihb, ?_, ?_⟩
      · intro e he
        simp only [List.mem_cons] at he
        rcases he with rfl | he
        · exact Or.inr ⟨0, by simp, Nat.zero_le _, rfl⟩
        · rcases ihe e he with h | ⟨k, hk, hki, rfl⟩
          · exact Or.inl h
          · exact Or.inr ⟨k + 1, by simpa using Nat.succ_lt_succ hk,
              Nat.succ_le_succ hki, rfl⟩
      · intro s hs
        simp only [List.mem_cons]
        exact Or.inr (Or.inr (ihs s hs))

/-- Claim C1: for every position i in the fixed ordered script list, if
executing script i fails (missing file, SQL error, or other error) and
the earlier scripts succeeded, run_sql_scripts returns failure, no
script after position i is ever executed, and the failing script and
its error are reported on the console. -/
theorem claim_C1 (env : ScriptsEnv) (i : Nat) (hi : i < SQL_SCRIPTS.length)
    (hdir : env.sqlDirOk = true) (hconn : env.connectMain = .ok ())
    (hok : ∀ nm ∈ SQL_SCRIPTS.take i, env.outcome nm = .ok)
    (hfail : env.outcome (SQL_SCRIPTS.get ⟨i, hi⟩) ≠ .ok) :
    (run_sql_scripts env).2.2 = false ∧
    (∀ j, ∀ hj : j < SQL_SCRIPTS.length, i < j →
       Ev.exec (SQL_SCRIPTS.get ⟨j, hj⟩) ∉ (run_sql_scripts env).1) ∧
    (∀ s ∈ (run_sql_script (SQL_SCRIPTS.get ⟨i, hi⟩)
              (env.outcome (SQL_SCRIPTS.get ⟨i, hi⟩))).1,
       s ∈ (run_sql_scripts env).2.1) := by
  obtain ⟨lb, le2, ls⟩ := scriptsLoop_fail env.outcome SQL_SCRIPTS i hi hok hfail
  have hrun : run_sql_scripts env =
      (Ev.openConn targetDB :: (scriptsLoop env.outcome SQL_SCRIPTS).1,
       (scriptsLoop env.outcome SQL_SCRIPTS).2.1,
       (scriptsLoop env.outcome SQL_SCRIPTS).2.2) := by
    unfold run_sql_scripts
    rw [hdir, hconn]
    rcases hsl : scriptsLoop env.outcome SQL_SCRIPTS with ⟨t, o, b⟩
    simp
  have hnd : SQL_SCRIPTS.Nodup := by decide
  refine ⟨by rw [hrun]; exact lb, ?_, ?_⟩
  · intro j hj hij hmem
    rw [hrun] at hmem
    rcases List.mem_cons.mp hmem with h | h
    · cases h
    · rcases le2 _ h with h2 | ⟨k, hk, hki, h2⟩
      · cases h2
      · have hgets : SQL_SCRIPTS.get ⟨j, hj⟩ = SQL_SCRIPTS.get ⟨k, hk⟩ :=
          Ev.exec.inj h2
        have : (⟨j, hj⟩ : Fin SQL_SCRIPTS.length) = ⟨k, hk⟩ :=
          hnd.get_inj_iff.mp hgets
        have : j = k := by simpa using congrArg Fin.val this
        omega
  · intro s hs
    rw [hrun]
    exact ls s hs

/-- Witness for C1: with script 03 failing, the run fails, script 05 is
never executed, and the error text is reported. -/
theorem claim_C1_witness :
    (run_sql_scripts ⟨true, .ok (), fun nm =>
        if nm == "03_views.sql" then .sqlErr "relation already exists" else .ok⟩).2.2 = false
    ∧ Ev.exec "05_triggers.sql" ∉
        (run_sql_scripts ⟨true, .ok (), fun nm =>
          if nm == "03_views.sql" then .sqlErr "relation already exists" else .ok⟩).1
    ∧ "      relation already exists" ∈
        (run_sql_scripts ⟨true, .ok (), fun nm =>
          if nm == "03_views.sql" then .sqlErr "relation already exists" else .ok⟩).2.1 := by
  obtain ⟨h1, h2, h3⟩ := claim_C1 ⟨true, .ok (), fun nm =>
      if nm == "03_views.sql" then .sqlErr "relation already exists" else .ok⟩
    2 (by decide) rfl rfl (by decide) (by decide)
  refine ⟨h1, ?_, ?_⟩
  · exact h2 4 (by decide) (by decide)
  · apply h3
    simp [run_sql_script, SQL_SCRIPTS]

/-- Claim C5: create_database first checks by name whether the target
database exists; if it exists it asks interactively whether to drop and
recreate, and on an affirmative answer terminates other connections,
then drops, then recreates; if it does not exist it creates it; on any
database error it reports the error and returns failure. -/
theorem claim_C5 (env : CreateDBEnv) :
    (env.connectAdmin = .ok () →
        (create_database env).trace.take 2 =
          [Ev.openConn "postgres", Ev.exec existsSQL]) ∧
    (env.connectAdmin = .ok () → env.existsCheck = .ok true →
        Ev.prompt dropPromptMsg ∈ (create_database env).trace) ∧
    (∀ line, env.connectAdmin = .ok () → env.existsCheck = .ok true →
        env.promptIn = .answer line → pyNorm line = "y" →
        env.termRes = .ok () → env.dropRes = .ok () → env.createRes = .ok () →
        create_database env = .ret
          [.openConn "postgres", .exec existsSQL, .prompt dropPromptMsg,
           .exec terminateSQL, .exec dropSQL, .exec createSQL, .closeConn]
          [ "   Database game_store already exists.",
            "   Dropped existing database game_store",
            "   Created database game_store" ] true) ∧
    (env.connectAdmin = .ok () → env.existsCheck = .ok false → env.createRes = .ok () →
        create_database env = .ret
          [.openConn "postgres", .exec existsSQL, .exec createSQL, .closeConn]
          [ "   Created database game_store" ] true) ∧
    (∀ e, env.connectAdmin = .error e →
        create_database env = .ret [] [createErrLine e] false) ∧
    (∀ e, env.connectAdmin = .ok () → env.existsCheck = .error e →
        create_database env =
          .ret [.openConn "postgres", .exec existsSQL] [createErrLine e] false) ∧
    (∀ e line, env.connectAdmin = .ok () → env.existsCheck = .ok true →
        env.promptIn = .answer line → pyNorm line = "y" → env.termRes = .error e →
        (create_database env).okr = false ∧ createErrLine e ∈ (create_database env).out) ∧
    (∀ e line, env.connectAdmin = .ok () → env.existsCheck = .ok true →
        env.promptIn = .answer line → pyNorm line = "y" →
        env.termRes = .ok () → env.dropRes = .error e →
        (create_database env).okr = false ∧ createErrLine e ∈ (create_database env).out) ∧
    (∀ e line, env.connectAdmin = .ok () → env.existsCheck = .ok true →
        env.promptIn = .answer line → pyNorm line = "y" →
        env.termRes = .ok () → env.dropRes = .ok () → env.createRes = .error e →
        (create_database env).okr = false ∧ createErrLine e ∈ (create_database env).out) ∧
    (∀ e, env.connectAdmin = .ok () → env.existsCheck = .ok false →
        env.createRes = .error e →
        (create_database env).okr = false ∧ createErrLine e ∈ (create_database env).out) := by
  refine ⟨?_, ?_, ?_, ?_, ?_, ?_, ?_, ?_, ?_, ?_⟩
  · intro hconn
    unfold create_database
    rw [hconn]
    rcases env.existsCheck with e | b
    · simp [PhaseOut.trace]
    · cases b
      · rcases env.createRes with e | u <;> simp [PhaseOut.trace]
      · rcases env.promptIn with line | _
        · by_cases hy : (pyNorm line == "y") = true <;>
            rcases env.termRes with e1 | u1 <;>
              rcases env.dropRes with e2 | u2 <;>
                rcases env.createRes with e3 | u3 <;>
                  simp [hy, PhaseOut.trace]
        · simp [PhaseOut.trace]
  · intro hconn hex
    unfold create_database
    rw [hconn, hex]
    rcases env.promptIn with line | _
    · by_cases hy : (pyNorm line == "y") = true <;>
        rcases env.termRes with e1 | u1 <;>
          rcases env.dropRes with e2 | u2 <;>
            rcases env.createRes with e3 | u3 <;>
              simp [hy, PhaseOut.trace]
    · simp [PhaseOut.trace]
  · intro line hconn hex hp hy ht hd hc
    unfold create_database
    rw [hconn, hex, hp, ht, hd, hc]
    simp [hy]
  · intro hconn hex hc
    unfold create_database
    rw [hconn, hex, hc]
  · intro e hconn
    unfold create_database
    rw [hconn]
  · intro e hconn hex
    unfold create_database
    rw [hconn, hex]
  · intro e line hconn hex hp hy ht
    unfold create_database
    rw [hconn, hex, hp, ht]
    simp [hy, PhaseOut.okr, PhaseOut.out]
  · intro e line hconn hex hp hy ht hd
    unfold create_database
    rw [hconn, hex, hp, ht, hd]
    simp [hy, PhaseOut.okr, PhaseOut.out]
  · intro e line hconn hex hp hy ht hd hc
    unfold create_database
    rw [hconn, hex, hp, ht, hd, hc]
    simp [hy, PhaseOut.okr, PhaseOut.out]
  · intro e hconn hex hc
    unfold create_database
    rw [hconn, hex, hc]
    simp [PhaseOut.okr, PhaseOut.out]

/-- Witness for C5: the affirmative drop-and-recreate path at a concrete
environment, with the input needing strip and lowercase. -/
theorem claim_C5_witness :
    create_database ⟨.ok (), .ok true, .answer " Y ", .ok (), .ok (), .ok ()⟩ = .ret
      [.openConn "postgres", .exec existsSQL, .prompt dropPromptMsg,
       .exec terminateSQL, .exec dropSQL, .exec createSQL, .closeConn]
      [ "   Database game_store already exists.",
        "   Dropped existing database game_store",
        "   Created database game_store" ] true :=
  (claim_C5 ⟨.ok (), .ok true, .answer " Y ", .ok (), .ok (), .ok ()⟩).2.2.1
    " Y " rfl rfl rfl (by decide) rfl rfl rfl

theorem scriptsLoop_events (outcome : String → ScriptRes) :
    ∀ l, ∀ e ∈ (scriptsLoop outcome l).1,
      e = Ev.closeConn ∨ ∃ n ∈ l, e = Ev.exec n := by
  intro l
  induction l with
  | nil =>
    intro e he
    rcases List.mem_singleton.mp he with rfl
    exact Or.inl rfl
  | cons n rest ih =>
    intro e he
    by_cases h : outcome n = .ok
    · rw [scriptsLoop_cons_ok outcome n rest h] at he
      rcases List.mem_cons.mp he with rfl | h2
      · exact Or.inr ⟨n, List.mem_cons_self n rest, rfl⟩
      · rcases ih e h2 with h3 | ⟨m, hm, h3⟩
        · exact Or.inl h3
        · exact Or.inr ⟨m, List.mem_cons_of_mem n hm, h3⟩
    · rw [scriptsLoop_cons_fail outcome n rest h] at he
      rcases List.mem_append.mp he with h2 | h2
      · cases hr : outcome n with
        | ok => exact absurd hr h
        | missing => rw [hr] at h2; cases h2
        | sqlErr a =>
          rw [hr] at h2
          rcases List.mem_singleton.mp h2 with rfl
          exact Or.inr ⟨n, List.mem_cons_self n rest, rfl⟩
        | otherErr a =>
          rw [hr] at h2
          rcases List.mem_singleton.mp h2 with rfl
          exact Or.inr ⟨n, List.mem_cons_self n rest, rfl⟩
      · rcases List.mem_singleton.mp h2 with rfl
        exact Or.inl rfl

theorem run_sql_scripts_no_mut (env : ScriptsEnv) :
    ∀ e ∈ (run_sql_scripts env).1, mutatingEv e = false := by
  unfold run_sql_scripts
  by_cases hd : env.sqlDirOk = true
  · rw [if_pos hd]
    rcases env.connectMain with er | u
    · intro e he
      cases he
    · rcases hsl : scriptsLoop env.outcome SQL_SCRIPTS with ⟨t, o, b⟩
      intro e he
      have he' : e ∈ Ev.openConn targetDB :: t := he
      rcases List.mem_cons.mp he' with rfl | h2
      · rfl
      · have h3 := scriptsLoop_events env.outcome SQL_SCRIPTS e (by rw [hsl]; exact h2)
        rcases h3 with rfl | ⟨n, hn, rfl⟩
        · rfl
        · have hall : ∀ n ∈ SQL_SCRIPTS, mutatingEv (Ev.exec n) = false := by decide
          exact hall n hn
  · rw [if_neg hd]
    intro e he
    cases he

theorem verifyTablesLoop_events (rc : String → Except String Nat) :
    ∀ l, ∀ e ∈ (verifyTablesLoop rc l).1, ∃ p ∈ l, e = Ev.exec (countSQL p.1) := by
  intro l
  induction l with
  | nil => intro e he; cases he
  | cons p rest ih =>
    rcases p with ⟨tn, dn⟩
    intro e he
    unfold verifyTablesLoop at he
    rcases hr : rc tn with er | c <;> rw [hr] at he
    · rcases List.mem_singleton.mp he with rfl
      exact ⟨(tn, dn), List.mem_cons_self _ _, rfl⟩
    · rcases hv : verifyTablesLoop rc rest with ⟨t, o, b⟩
      rw [hv] at he
      simp only at he
      rcases List.mem_cons.mp he with rfl | h2
      · exact ⟨(tn, dn), List.mem_cons_self _ _, rfl⟩
      · obtain ⟨q, hq, h3⟩ := ih e (by rw [hv]; exact h2)
        exact ⟨q, List.mem_cons_of_mem _ hq, h3⟩

theorem verify_installation_no_mut (env : VerifyEnv) :
    ∀ e ∈ (verify_installation env).1, mutatingEv e = false := by
  unfold verify_installation
  rcases env.connectMain with er | u
  · intro e he
    cases he
  · rcases env.tableCount with er | tc
    · intro e he
      have hc : ∀ x ∈ [Ev.openConn targetDB, Ev.exec tableCountSQL],
          mutatingEv x = false := by decide
      exact hc e he
    · rcases env.viewCount with er | vc
      · intro e he
        have hc : ∀ x ∈ [Ev.openConn targetDB, Ev.exec tableCountSQL]
            ++ [Ev.exec viewCountSQL], mutatingEv x = false := by decide
        exact hc e he
      · rcases env.functionCount with er | fc
        · intro e he
          have hc : ∀ x ∈ [Ev.openConn targetDB, Ev.exec tableCountSQL]
              ++ [Ev.exec viewCountSQL, Ev.exec functionCountSQL],
              mutatingEv x = false := by decide
          exact hc e he
        · rcases env.triggerCount with er | trc
          · intro e he
            have hc : ∀ x ∈ [Ev.openConn targetDB, Ev.exec tableCountSQL]
                ++ [Ev.exec viewCountSQL, Ev.exec functionCountSQL,
                    Ev.exec triggerCountSQL], mutatingEv x = false := by decide
            exact hc e he
          · rcases hv : verifyTablesLoop env.rowCount tables_to_check with ⟨t, o, b⟩
            intro e he
            have he' : e ∈ (([Ev.openConn targetDB, Ev.exec tableCountSQL]
                ++ [Ev.exec viewCountSQL, Ev.exec functionCountSQL,
                    Ev.exec triggerCountSQL]) ++ t)
                ++ (if b = true then [Ev.closeConn] else []) := he
            rcases List.mem_append.mp he' with h2 | h2
            · rcases List.mem_append.mp h2 with h3 | h3
              · have hc : ∀ x ∈ [Ev.openConn targetDB, Ev.exec tableCountSQL]
                    ++ [Ev.exec viewCountSQL, Ev.exec functionCountSQL,
                        Ev.exec triggerCountSQL], mutatingEv x = false := by decide
                exact hc e h3
              · obtain ⟨p, hp, rfl⟩ :=
                  verifyTablesLoop_events env.rowCount tables_to_check e
                    (by rw [hv]; exact h3)
                have hall : ∀ p ∈ tables_to_check,
                    mutatingEv (Ev.exec (countSQL p.1)) = false := by decide
                exact hall p hp
            · cases b
              · cases h2
              · rcases List.mem_singleton.mp h2 with rfl
                rfl

theorem applyTrace_filter {S : Type} (step : Ev → S → S) (p : Ev → Bool) :
    ∀ (t : List Ev) (st : S), (∀ e ∈ t, p e = false → ∀ s, step e s = s) →
      applyTrace step t st = applyTrace step (t.filter p) st := by
  intro t
  induction t with
  | nil => intro st _; rfl
  | cons e t ih =>
    intro st h
    by_cases hp : p e = true
    · rw [show (e :: t).filter p = e :: t.filter p by simp [List.filter_cons, hp]]
      show applyTrace step t (step e st)
        = applyTrace step (t.filter p) (step e st)
      exact ih (step e st) (fun x hx => h x (List.mem_cons_of_mem e hx))
    · have hpe : p e = false := by simpa using hp
      rw [show (e :: t).filter p = t.filter p by simp [List.filter_cons, hpe]]
      show applyTrace step t (step e st) = applyTrace step (t.filter p) st
      rw [h e (List.mem_cons_self e t) hpe st]
      exact ih st (fun x hx => h x (List.mem_cons_of_mem e hx))

theorem applyTrace_id {S : Type} (step : Ev → S → S) :
    ∀ (t : List Ev) (st : S), (∀ e ∈ t, ∀ s, step e s = s) →
      applyTrace step t st = st := by
  intro t
  induction t with
  | nil => intro st _; rfl
  | cons e t ih =>
    intro st h
    show applyTrace step t (step e st) = st
    rw [h e (List.mem_cons_self e t) st]
    exact ih st (fun x hx => h x (List.mem_cons_of_mem e hx))

/-- Counterexample for C6 as stated: with the database already
provisioned and the drop-and-recreate prompt answered n, the loader
still completes the run (exit 0) and still executes the seed script
02_seed.sql against the kept database; under a database-state semantics
in which executing that script adds a row (which is what the seed
script is for), the count after the run differs from the count before
the run.  The loader does not ensure "verify counts unchanged from
before the run". -/
theorem claim_C6_cex :
    (loadMain ⟨.answer "", ⟨.ok (), .ok true, .answer "n", .ok (), .ok (), .ok ()⟩,
        ⟨true, .ok (), fun _ => .ok⟩,
        ⟨.ok (), .ok 1, .ok 1, .ok 1, .ok 1, fun _ => .ok 0⟩⟩).2 = .exit 0
    ∧ Ev.exec "02_seed.sql" ∈
        (loadMain ⟨.answer "", ⟨.ok (), .ok true, .answer "n", .ok (), .ok (), .ok ()⟩,
          ⟨true, .ok (), fun _ => .ok⟩,
          ⟨.ok (), .ok 1, .ok 1, .ok 1, .ok 1, fun _ => .ok 0⟩⟩).1
    ∧ applyTrace (fun e s => if e == Ev.exec "02_seed.sql" then s + 1 else s)
        (loadMain ⟨.answer "", ⟨.ok (), .ok true, .answer "n", .ok (), .ok (), .ok ()⟩,
          ⟨true, .ok (), fun _ => .ok⟩,
          ⟨.ok (), .ok 1, .ok 1, .ok 1, .ok 1, fun _ => .ok 0⟩⟩).1 0 ≠ 0 := by
  refine ⟨rfl, ?_, ?_⟩ <;> decide

/-- Claim C6 (amended): when the loader runs against an
already-provisioned database and the drop-and-recreate prompt is
answered negatively, the create_database phase issues no mutating and
no script command (the database is untouched by it); main then still
executes the script files against the kept database, and every command
of the whole run other than those script executions is read-only, so
the database state after the run is the result of applying only the
script executions, and the verify counts are unchanged from before the
run exactly when the external script files themselves leave the
database unchanged. -/
theorem claim_C6 {S : Type} (env : LoadEnv) (s0 line : String)
    (step : Ev → S → S) (counts : S → Nat × Nat × Nat × Nat) (st : S)
    (hstart : env.startIn = .answer s0)
    (hconn : env.cEnv.connectAdmin = .ok ()) (hex : env.cEnv.existsCheck = .ok true)
    (hp : env.cEnv.promptIn = .answer line) (hn : pyNorm line ≠ "y")
    (hread : ∀ (e : Ev) (s : S), mutatingEv e = false → isScriptExec e = false →
      step e s = s) :
    (∀ e ∈ (create_database env.cEnv).trace,
        mutatingEv e = false ∧ isScriptExec e = false) ∧
    counts (applyTrace step (loadMain env).1 st)
      = counts (applyTrace step ((loadMain env).1.filter isScriptExec) st) ∧
    ((∀ (e : Ev) (s : S), isScriptExec e = true → step e s = s) →
      counts (applyTrace step (loadMain env).1 st) = counts st) := by
  have hb : (pyNorm line == "y") = false := by simpa using hn
  have heqc : create_database env.cEnv = .ret
      [.openConn "postgres", .exec existsSQL, .prompt dropPromptMsg, .closeConn]
      [ "   Database game_store already exists.", "   Using existing database." ]
      true := by
    unfold create_database
    rw [hconn, hex, hp]
    simp [hb]
  have hcreate4 : ∀ x ∈ [Ev.openConn "postgres", Ev.exec existsSQL,
      Ev.prompt dropPromptMsg, Ev.closeConn],
      mutatingEv x = false ∧ isScriptExec x = false := by decide
  have hfull : ∀ e ∈ (loadMain env).1, mutatingEv e = false := by
    unfold loadMain
    rw [hstart, heqc]
    rcases hr : run_sql_scripts env.sEnv with ⟨t2, o2, ok2⟩
    cases ok2
    · intro e he
      have he' : e ∈ [Ev.openConn "postgres", Ev.exec existsSQL,
          Ev.prompt dropPromptMsg, Ev.closeConn] ++ t2 := he
      rcases List.mem_append.mp he' with h2 | h2
      · exact (hcreate4 e h2).1
      · exact run_sql_scripts_no_mut env.sEnv e (by rw [hr]; exact h2)
    · rcases hv : verify_installation env.vEnv with ⟨t3, o3, ok3⟩
      intro e he
      have he' : e ∈ ([Ev.openConn "postgres", Ev.exec existsSQL,
          Ev.prompt dropPromptMsg, Ev.closeConn] ++ t2) ++ t3 := he
      rcases List.mem_append.mp he' with h2 | h2
      · rcases List.mem_append.mp h2 with h3 | h3
        · exact (hcreate4 e h3).1
        · exact run_sql_scripts_no_mut env.sEnv e (by rw [hr]; exact h3)
      · exact verify_installation_no_mut env.vEnv e (by rw [hv]; exact h2)
  have happly : applyTrace step (loadMain env).1 st
      = applyTrace step ((loadMain env).1.filter isScriptExec) st :=
    applyTrace_filter step isScriptExec (loadMain env).1 st
      (fun e he hpe s => hread e s (hfull e he) hpe)
  refine ⟨?_, congrArg counts happly, ?_⟩
  · rw [heqc]
    intro e he
    exact hcreate4 e he
  · intro hscr
    have h3 : applyTrace step ((loadMain env).1.filter isScriptExec) st = st :=
      applyTrace_id step ((loadMain env).1.filter isScriptExec) st
        (fun x hx s => hscr x s (List.mem_filter.mp hx).2)
    rw [happly, h3]

/-- Witness for the amended C6 at a concrete negative-answer
environment, with the identity step (scripts that change nothing), so
the counts after the whole run equal the counts before it. -/
theorem claim_C6_witness :
    (∀ e ∈ (create_database
        ⟨.ok (), .ok true, .answer "n", .ok (), .ok (), .ok ()⟩).trace,
      mutatingEv e = false ∧ isScriptExec e = false) ∧
    (fun s : Nat => (s, s, s, s))
        (applyTrace (fun _ s => s)
          (loadMain ⟨.answer "", ⟨.ok (), .ok true, .answer "n", .ok (), .ok (), .ok ()⟩,
            ⟨true, .ok (), fun _ => .ok⟩,
            ⟨.ok (), .ok 1, .ok 1, .ok 1, .ok 1, fun _ => .ok 0⟩⟩).1 7)
      = (fun s : Nat => (s, s, s, s))
          (applyTrace (fun _ s => s)
            ((loadMain ⟨.answer "", ⟨.ok (), .ok true, .answer "n", .ok (), .ok (), .ok ()⟩,
              ⟨true, .ok (), fun _ => .ok⟩,
              ⟨.ok (), .ok 1, .ok 1, .ok 1, .ok 1, fun _ => .ok 0⟩⟩).1.filter isScriptExec) 7) ∧
    (fun s : Nat => (s, s, s, s))
        (applyTrace (fun _ s => s)
          (loadMain ⟨.answer "", ⟨.ok (), .ok true, .answer "n", .ok (), .ok (), .ok ()⟩,
            ⟨true, .ok (), fun _ => .ok⟩,
            ⟨.ok (), .ok 1, .ok 1, .ok 1, .ok 1, fun _ => .ok 0⟩⟩).1 7)
      = (fun s : Nat => (s, s, s, s)) 7 := by
  obtain ⟨h1, h2, h3⟩ := @claim_C6 Nat
    ⟨.answer "", ⟨.ok (), .ok true, .answer "n", .ok (), .ok (), .ok ()⟩,
      ⟨true, .ok (), fun _ => .ok⟩,
      ⟨.ok (), .ok 1, .ok 1, .ok 1, .ok 1, fun _ => .ok 0⟩⟩
    "" "n" (fun _ s => s) (fun s => (s, s, s, s)) 7
    rfl rfl rfl rfl (by decide) (fun _ _ _ _ => rfl)
  exact ⟨h1, h2, h3 (fun _ _ _ => rfl)⟩

/-- Claim C10: both yes/no prompts treat only input normalizing to
exactly y (after strip and lowercase) as affirmative; any other input,
including yes and the empty input, takes the non-destructive default
branch (keep the database / skip the benchmarks). -/
theorem claim_C10 :
    pyNorm "yes" ≠ "y" ∧ pyNorm "" ≠ "y" ∧ pyNorm " Y " = "y" ∧
    (∀ (env : CreateDBEnv) (line : String),
        env.connectAdmin = .ok () → env.existsCheck = .ok true →
        env.promptIn = .answer line → pyNorm line ≠ "y" →
        create_database env = .ret
          [.openConn "postgres", .exec existsSQL, .prompt dropPromptMsg, .closeConn]
          [ "   Database game_store already exists.",
            "   Using existing database." ] true) ∧
    (∀ (env : ExplainEnv) (line : String),
        env.connectRes = .ok () → env.benchIn = .answer line →
        (pyNorm line ≠ "y" →
          explainMain env = (explainPreTrace env ++ [.closeConn], .exit 0)) ∧
        (pyNorm line = "y" →
          explainMain env =
            (explainPreTrace env ++ benchAll env.benchTime 0 QUERIES_TO_ANALYZE
               ++ [.closeConn], .exit 0))) := by
  refine ⟨by decide, by decide, by decide, ?_, ?_⟩
  · intro env line hconn hex hp hn
    have hb : (pyNorm line == "y") = false := by simpa using hn
    unfold create_database
    rw [hconn, hex, hp]
    simp [hb]
  · intro env line hconn hbench
    constructor
    · intro hn
      have hb : (pyNorm line == "y") = false := by simpa using hn
      unfold explainMain
      rw [hconn, hbench]
      simp [hb]
    · intro hy
      have hb : (pyNorm line == "y") = true := by simpa using hy
      unfold explainMain
      rw [hconn, hbench]
      simp [hb]

/-- Witness for C10: the input yes keeps the existing database and
skips the benchmarks; the input y runs the benchmarks. -/
theorem claim_C10_witness :
    create_database ⟨.ok (), .ok true, .answer "yes", .ok (), .ok (), .ok ()⟩ = .ret
        [.openConn "postgres", .exec existsSQL, .prompt dropPromptMsg, .closeConn]
        [ "   Database game_store already exists.",
          "   Using existing database." ] true
    ∧ explainMain ⟨.ok (), fun _ => .ok [], none, [], none, [],
          .answer "yes", fun _ _ => .ok 1⟩ =
        (explainPreTrace ⟨.ok (), fun _ => .ok [], none, [], none, [],
            .answer "yes", fun _ _ => .ok 1⟩ ++ [.closeConn], .exit 0)
    ∧ explainMain ⟨.ok (), fun _ => .ok [], none, [], none, [],
          .answer "y", fun _ _ => .ok 1⟩ =
        (explainPreTrace ⟨.ok (), fun _ => .ok [], none, [], none, [],
            .answer "y", fun _ _ => .ok 1⟩
          ++ benchAll (fun _ _ => .ok 1) 0 QUERIES_TO_ANALYZE ++ [.closeConn], .exit 0) :=
  ⟨claim_C10.2.2.2.1 ⟨.ok (), .ok true, .answer "yes", .ok (), .ok (), .ok ()⟩ "yes"
     rfl rfl rfl (by decide),
   (claim_C10.2.2.2.2 ⟨.ok (), fun _ => .ok [], none, [], none, [],
       .answer "yes", fun _ _ => .ok 1⟩ "yes" rfl rfl).1 (by decide),
   (claim_C10.2.2.2.2 ⟨.ok (), fun _ => .ok [], none, [], none, [],
       .answer "y", fun _ _ => .ok 1⟩ "y" rfl rfl).2 (by decide)⟩

/-- Claim C2 (amended): exit status 0 on full success, and on
cancellation at the prompts whose KeyboardInterrupt is handled (the
initial continue prompt of the loader; the analyzer, anywhere inside
its try block, modelled at its prompt); exit status 1 on any connection
failure, script-execution failure, or verification failure.  A
KeyboardInterrupt at the loader's drop-and-recreate prompt is not
caught and the process terminates abnormally, not with exit status 0. -/
theorem claim_C2 (lenv : LoadEnv) (eenv : ExplainEnv) :
    (lenv.startIn = .interrupt → loadMain lenv = ([], .exit 0)) ∧
    (∀ s t, lenv.startIn = .answer s → create_database lenv.cEnv = .thrown t →
        (loadMain lenv).2 = .uncaughtInterrupt) ∧
    (∀ s t o, lenv.startIn = .answer s → create_database lenv.cEnv = .ret t o false →
        (loadMain lenv).2 = .exit 1) ∧
    (∀ s t o, lenv.startIn = .answer s → create_database lenv.cEnv = .ret t o true →
        (run_sql_scripts lenv.sEnv).2.2 = false → (loadMain lenv).2 = .exit 1) ∧
    (∀ s t o, lenv.startIn = .answer s → create_database lenv.cEnv = .ret t o true →
        (run_sql_scripts lenv.sEnv).2.2 = true →
        (verify_installation lenv.vEnv).2.2 = false → (loadMain lenv).2 = .exit 1) ∧
    (∀ s t o, lenv.startIn = .answer s → create_database lenv.cEnv = .ret t o true →
        (run_sql_scripts lenv.sEnv).2.2 = true →
        (verify_installation lenv.vEnv).2.2 = true → (loadMain lenv).2 = .exit 0) ∧
    (∀ e, eenv.connectRes = .error e → explainMain eenv = ([], .exit 1)) ∧
    (eenv.connectRes = .ok () → (explainMain eenv).2 = .exit 0) := by
  refine ⟨?_, ?_, ?_, ?_, ?_, ?_, ?_, ?_⟩
  · intro hs
    unfold loadMain
    rw [hs]
  · intro s t hs hc
    unfold loadMain
    rw [hs, hc]
  · intro s t o hs hc
    unfold loadMain
    rw [hs, hc]
  · intro s t o hs hc h2
    unfold loadMain
    rw [hs, hc]
    rcases hr : run_sql_scripts lenv.sEnv with ⟨t2, o2, ok2⟩
    rw [hr] at h2
    simp only at h2
    rw [h2]
    rfl
  · intro s t o hs hc h2 h3
    unfold loadMain
    rw [hs, hc]
    rcases hr : run_sql_scripts lenv.sEnv with ⟨t2, o2, ok2⟩
    rw [hr] at h2
    simp only at h2
    rcases hv : verify_installation lenv.vEnv with ⟨t3, o3, ok3⟩
    rw [hv] at h3
    simp only at h3
    rw [h2, h3]
    rfl
  · intro s t o hs hc h2 h3
    unfold loadMain
    rw [hs, hc]
    rcases hr : run_sql_scripts lenv.sEnv with ⟨t2, o2, ok2⟩
    rw [hr] at h2
    simp only at h2
    rcases hv : verify_installation lenv.vEnv with ⟨t3, o3, ok3⟩
    rw [hv] at h3
    simp only at h3
    rw [h2, h3]
    rfl
  · intro e hc
    unfold explainMain
    rw [hc]
  · intro hc
    unfold explainMain
    rw [hc]
    rcases eenv.benchIn with line | _
    · by_cases hy : (pyNorm line == "y") = true <;> simp [hy]
    · rfl

/-- Counterexample for C2 as stated: a KeyboardInterrupt at the
loader's drop-and-recreate prompt is an explicit operator cancellation,
yet the loader's outcome is an uncaught interrupt (abnormal
termination), not exit status 0: the handler around the initial prompt
does not cover this `input()` call and create_database catches only
psycopg2.Error. -/
theorem claim_C2_cex :
    (loadMain ⟨.answer "", ⟨.ok (), .ok true, .interrupt, .ok (), .ok (), .ok ()⟩,
        ⟨true, .ok (), fun _ => .ok⟩,
        ⟨.ok (), .ok 1, .ok 1, .ok 1, .ok 1, fun _ => .ok 0⟩⟩).2
        = ExitOutcome.uncaughtInterrupt
    ∧ (loadMain ⟨.answer "", ⟨.ok (), .ok true, .interrupt, .ok (), .ok (), .ok ()⟩,
        ⟨true, .ok (), fun _ => .ok⟩,
        ⟨.ok (), .ok 1, .ok 1, .ok 1, .ok 1, fun _ => .ok 0⟩⟩).2 ≠ ExitOutcome.exit 0 := by
  refine ⟨rfl, ?_⟩
  decide

/-- Witness for the amended C2: a fully successful loader run exits 0,
a loader whose scripts fail exits 1, and an analyzer that cannot
connect exits 1. -/
theorem claim_C2_witness :
    (loadMain ⟨.answer "", ⟨.ok (), .ok false, .answer "", .ok (), .ok (), .ok ()⟩,
        ⟨true, .ok (), fun _ => .ok⟩,
        ⟨.ok (), .ok 1, .ok 1, .ok 1, .ok 1, fun _ => .ok 0⟩⟩).2 = .exit 0
    ∧ (loadMain ⟨.answer "", ⟨.ok (), .ok false, .answer "", .ok (), .ok (), .ok ()⟩,
        ⟨true, .ok (), fun _ => .sqlErr "boom"⟩,
        ⟨.ok (), .ok 1, .ok 1, .ok 1, .ok 1, fun _ => .ok 0⟩⟩).2 = .exit 1
    ∧ explainMain ⟨.error "could not connect", fun _ => .ok [], none, [], none, [],
        .answer "", fun _ _ => .ok 1⟩ = ([], .exit 1) := by
  refine ⟨?_, ?_, ?_⟩
  · exact (claim_C2 ⟨.answer "", ⟨.ok (), .ok false, .answer "", .ok (), .ok (), .ok ()⟩,
        ⟨true, .ok (), fun _ => .ok⟩,
        ⟨.ok (), .ok 1, .ok 1, .ok 1, .ok 1, fun _ => .ok 0⟩⟩
      ⟨.ok (), fun _ => .ok [], none, [], none, [], .answer "", fun _ _ => .ok 1⟩).2.2.2.2.2.1
      "" [.openConn "postgres", .exec existsSQL, .exec createSQL, .closeConn]
      [ "   Created database game_store" ] rfl rfl (by decide) (by decide)
  · exact (claim_C2 ⟨.answer "", ⟨.ok (), .ok false, .answer "", .ok (), .ok (), .ok ()⟩,
        ⟨true, .ok (), fun _ => .sqlErr "boom"⟩,
        ⟨.ok (), .ok 1, .ok 1, .ok 1, .ok 1, fun _ => .ok 0⟩⟩
      ⟨.ok (), fun _ => .ok [], none, [], none, [], .answer "", fun _ _ => .ok 1⟩).2.2.2.1
      "" [.openConn "postgres", .exec existsSQL, .exec createSQL, .closeConn]
      [ "   Created database game_store" ] rfl rfl (by decide)
  · exact (claim_C2 ⟨.answer "", ⟨.ok (), .ok false, .answer "", .ok (), .ok (), .ok ()⟩,
        ⟨true, .ok (), fun _ => .ok⟩,
        ⟨.ok (), .ok 1, .ok 1, .ok 1, .ok 1, fun _ => .ok 0⟩⟩
      ⟨.error "could not connect", fun _ => .ok [], none, [], none, [],
        .answer "", fun _ _ => .ok 1⟩).2.2.2.2.2.2.1 "could not connect" rfl

theorem connStep_id (s : Option Nat) (e : Ev) (h : isConnEv e = false) :
    connStep s e = s := by
  cases s <;> cases e <;> simp_all [connStep, isConnEv]

theorem connRun_append (s : Option Nat) (a b : List Ev) :
    connRun s (a ++ b) = connRun (connRun s a) b := by
  simp [connRun, List.foldl_append]

theorem connRun_no_conn (t : List Ev) (h : ∀ e ∈ t, isConnEv e = false) :
    ∀ s, connRun s t = s := by
  induction t with
  | nil => intro s; rfl
  | cons e t ih =>
    intro s
    have he : isConnEv e = false := h e (List.mem_cons_self e t)
    have ht : ∀ x ∈ t, isConnEv x = false := fun x hx => h x (List.mem_cons_of_mem e hx)
    show connRun (connStep s e) t = s
    rw [connStep_id s e he]
    exact ih ht s

theorem analyzeAllTrace_no_conn (planRes : String → Except String (List String))
    (qs : List QueryInfo) : ∀ e ∈ analyzeAllTrace planRes qs, isConnEv e = false := by
  induction qs with
  | nil => intro e he; cases he
  | cons q rest ih =>
    intro e he
    unfold analyzeAllTrace at he
    rw [List.map_cons, List.flatten_cons, analyze_query_trace] at he
    rcases List.mem_append.mp he with h | h
    · rcases List.mem_singleton.mp h with rfl
      rfl
    · exact ih e h

theorem idx_stats_no_conn (idxErr : Option String) (stats : List IndexStatRow) :
    ∀ e ∈ (get_index_usage_stats idxErr stats).1, isConnEv e = false := by
  intro e he
  unfold get_index_usage_stats at he
  rcases idxErr with _ | er
  · by_cases hr : (indexQueryRows stats).isEmpty = true <;> simp [hr] at he <;>
      rw [he] <;> rfl
  · simp at he
    rw [he]
    rfl

theorem table_sizes_no_conn (sizeErr : Option String) (tables : List TableSizeRow) :
    ∀ e ∈ (get_table_sizes sizeErr tables).1, isConnEv e = false := by
  intro e he
  unfold get_table_sizes at he
  rcases sizeErr with _ | er <;> simp at he <;> rw [he] <;> rfl

theorem benchLoop_no_conn (qsql : String) (time : Nat → Except String ℚ) :
    ∀ k i, ∀ e ∈ (benchLoop qsql time i k).1, isConnEv e = false := by
  intro k
  induction k with
  | zero => intro i e he; cases he
  | succ k ih =>
    intro i e he
    unfold benchLoop at he
    rcases ht : time i with er | t <;> rw [ht] at he
    · simp at he
      rw [he]
      rfl
    · simp only at he
      rcases List.mem_cons.mp he with rfl | h
      · rfl
      · exact ih (i + 1) e h

theorem benchAll_no_conn (benchTime : Nat → Nat → Except String ℚ) :
    ∀ (qs : List QueryInfo) (i : Nat), ∀ e ∈ benchAll benchTime i qs, isConnEv e = false := by
  intro qs
  induction qs with
  | nil => intro i e he; cases he
  | cons q rest ih =>
    intro i e he
    unfold benchAll at he
    rcases List.mem_append.mp he with h | h
    · have : (run_simple_benchmark q (benchTime i) 5).trace = (benchLoop q.query (benchTime i) 0 5).1 := by
        unfold run_simple_benchmark
        rcases hb : benchLoop q.query (benchTime i) 0 5 with ⟨evs, ts, b⟩
        cases b <;> simp
      rw [this] at h
      exact benchLoop_no_conn q.query (benchTime i) 5 0 e h
    · exact ih (i + 1) e h

theorem create_database_conn (env : CreateDBEnv) :
    (connRun (some 0) (create_database env).trace).isSome = true ∧
    ((create_database env).okr = true →
      connRun (some 0) (create_database env).trace = some 0 ∧
      ∃ t', (create_database env).trace = t' ++ [Ev.closeConn]) := by
  rcases hc : env.connectAdmin with e | u
  · have heq : create_database env = .ret [] [createErrLine e] false := by
      unfold create_database
      rw [hc]
    rw [heq]
    exact ⟨rfl, by simp [PhaseOut.okr]⟩
  · rcases hex : env.existsCheck with e | b
    · have heq : create_database env =
          .ret [.openConn "postgres", .exec existsSQL] [createErrLine e] false := by
        unfold create_database
        rw [hc, hex]
      rw [heq]
      exact ⟨rfl, by simp [PhaseOut.okr]⟩
    · cases b
      · rcases hcr : env.createRes with e | u2
        · have heq : create_database env =
              .ret [.openConn "postgres", .exec existsSQL, .exec createSQL]
                [createErrLine e] false := by
            unfold create_database
            rw [hc, hex, hcr]
          rw [heq]
          exact ⟨rfl, by simp [PhaseOut.okr]⟩
        · have heq : create_database env =
              .ret [.openConn "postgres", .exec existsSQL, .exec createSQL, .closeConn]
                [ "   Created database game_store" ] true := by
            unfold create_database
            rw [hc, hex, hcr]
          rw [heq]
          exact ⟨rfl, fun _ =>
            ⟨rfl, ⟨[.openConn "postgres", .exec existsSQL, .exec createSQL], rfl⟩⟩⟩
      · rcases hp : env.promptIn with line | _
        · by_cases hy : (pyNorm line == "y") = true
          · rcases ht : env.termRes with e1 | u1
            · have heq : (create_database env).trace =
                  [.openConn "postgres", .exec existsSQL, .prompt dropPromptMsg,
                   .exec terminateSQL] ∧ (create_database env).okr = false := by
                unfold create_database
                rw [hc, hex, hp, ht]
                simp [hy, PhaseOut.trace, PhaseOut.okr]
              rw [heq.1]
              exact ⟨rfl, by rw [heq.2]; simp⟩
            · rcases hd : env.dropRes with e2 | u2
              · have heq : (create_database env).trace =
                    [.openConn "postgres", .exec existsSQL, .prompt dropPromptMsg,
                     .exec terminateSQL, .exec dropSQL]
                      ∧ (create_database env).okr = false := by
                  unfold create_database
                  rw [hc, hex, hp, ht, hd]
                  simp [hy, PhaseOut.trace, PhaseOut.okr]
                rw [heq.1]
                exact ⟨rfl, by rw [heq.2]; simp⟩
              · rcases hcr : env.createRes with e3 | u3
                · have heq : (create_database env).trace =
                      [.openConn "postgres", .exec existsSQL, .prompt dropPromptMsg,
                       .exec terminateSQL, .exec dropSQL, .exec createSQL]
                        ∧ (create_database env).okr = false := by
                    unfold create_database
                    rw [hc, hex, hp, ht, hd, hcr]
                    simp [hy, PhaseOut.trace, PhaseOut.okr]
                  rw [heq.1]
                  exact ⟨rfl, by rw [heq.2]; simp⟩
                · have heq : (create_database env).trace =
                      [.openConn "postgres", .exec existsSQL, .prompt dropPromptMsg,
                       .exec terminateSQL, .exec dropSQL, .exec createSQL, .closeConn]
                        ∧ (create_database env).okr = true := by
                    unfold create_database
                    rw [hc, hex, hp, ht, hd, hcr]
                    simp [hy, PhaseOut.trace, PhaseOut.okr]
                  rw [heq.1]
                  exact ⟨rfl, fun _ => ⟨rfl,
                    ⟨[.openConn "postgres", .exec existsSQL, .prompt dropPromptMsg,
                      .exec terminateSQL, .exec dropSQL, .exec createSQL], rfl⟩⟩⟩
          · have heq : (create_database env).trace =
                [.openConn "postgres", .exec existsSQL, .prompt dropPromptMsg,
                 .closeConn] ∧ (create_database env).okr = true := by
              unfold create_database
              rw [hc, hex, hp]
              simp [hy, PhaseOut.trace, PhaseOut.okr]
            rw [heq.1]
            exact ⟨rfl, fun _ => ⟨rfl,
              ⟨[.openConn "postgres", .exec existsSQL, .prompt dropPromptMsg], rfl⟩⟩⟩
        · have heq : create_database env =
              .thrown [.openConn "postgres", .exec existsSQL, .prompt dropPromptMsg] := by
            unfold create_database
            rw [hc, hex, hp]
          rw [heq]
          exact ⟨rfl, by simp [PhaseOut.okr]⟩

theorem scriptsLoop_conn (outcome : String → ScriptRes) :
    ∀ l : List String, connRun (some 1) (scriptsLoop outcome l).1 = some 0 ∧
      ∃ t', (scriptsLoop outcome l).1 = t' ++ [Ev.closeConn] := by
  intro l
  induction l with
  | nil => exact ⟨rfl, ⟨[], rfl⟩⟩
  | cons n rest ih =>
    obtain ⟨ih1, t', ht⟩ := ih
    by_cases h : outcome n = .ok
    · rw [scriptsLoop_cons_ok outcome n rest h]
      exact ⟨ih1, ⟨Ev.exec n :: t', by rw [ht]; rfl⟩⟩
    · rw [scriptsLoop_cons_fail outcome n rest h]
      constructor
      · rcases hr : outcome n with _ | _ | e | e
        · exact absurd hr h
        · rfl
        · rfl
        · rfl
      · exact ⟨scriptEvents n (outcome n), rfl⟩

theorem run_sql_scripts_conn (env : ScriptsEnv) :
    connRun (some 0) (run_sql_scripts env).1 = some 0 ∧
    ((run_sql_scripts env).2.2 = true →
      ∃ t', (run_sql_scripts env).1 = t' ++ [Ev.closeConn]) := by
  unfold run_sql_scripts
  by_cases hd : env.sqlDirOk = true
  · rw [if_pos hd]
    rcases env.connectMain with e | u
    · exact ⟨rfl, by simp⟩
    · rcases hsl : scriptsLoop env.outcome SQL_SCRIPTS with ⟨t, o, b⟩
      obtain ⟨h1, t', ht⟩ := scriptsLoop_conn env.outcome SQL_SCRIPTS
      rw [hsl] at h1 ht
      simp only at h1 ht ⊢
      exact ⟨h1, fun _ => ⟨Ev.openConn targetDB :: t', by rw [ht]; rfl⟩⟩
  · rw [if_neg hd]
    exact ⟨rfl, by simp⟩

theorem verifyTablesLoop_no_conn (rc : String → Except String Nat) :
    ∀ l, ∀ e ∈ (verifyTablesLoop rc l).1, isConnEv e = false := by
  intro l
  induction l with
  | nil => intro e he; cases he
  | cons p rest ih =>
    rcases p with ⟨tn, dn⟩
    intro e he
    unfold verifyTablesLoop at he
    rcases hr : rc tn with er | c <;> rw [hr] at he
    · simp at he
      rw [he]
      rfl
    · rcases hv : verifyTablesLoop rc rest with ⟨t, o, b⟩
      rw [hv] at he
      simp only at he
      rcases List.mem_cons.mp he with rfl | h
      · rfl
      · have := ih e
        rw [hv] at this
        exact this h

theorem verify_installation_conn (env : VerifyEnv) :
    (connRun (some 0) (verify_installation env).1).isSome = true ∧
    ((verify_installation env).2.2 = true →
      connRun (some 0) (verify_installation env).1 = some 0 ∧
      ∃ t', (verify_installation env).1 = t' ++ [Ev.closeConn]) := by
  unfold verify_installation
  rcases env.connectMain with e | u
  · exact ⟨rfl, by simp⟩
  · rcases env.tableCount with e | tc
    · exact ⟨rfl, by simp⟩
    · rcases env.viewCount with e | vc
      · exact ⟨rfl, by simp⟩
      · rcases env.functionCount with e | fc
        · exact ⟨rfl, by simp⟩
        · rcases env.triggerCount with e | trc
          · exact ⟨rfl, by simp⟩
          · rcases hv : verifyTablesLoop env.rowCount tables_to_check with ⟨t, o, b⟩
            have hnc : ∀ x ∈ t, isConnEv x = false := by
              have := verifyTablesLoop_no_conn env.rowCount tables_to_check
              rw [hv] at this
              exact this
            simp only
            have hrun : ∀ tail : List Ev,
                connRun (some 0)
                  ((([Ev.openConn targetDB, Ev.exec tableCountSQL]
                    ++ [Ev.exec viewCountSQL, Ev.exec functionCountSQL,
                        Ev.exec triggerCountSQL]) ++ t) ++ tail)
                  = connRun (some 1) tail := by
              intro tail
              rw [connRun_append, connRun_append]
              rw [show connRun (some 0)
                    ([Ev.openConn targetDB, Ev.exec tableCountSQL]
                      ++ [Ev.exec viewCountSQL, Ev.exec functionCountSQL,
                          Ev.exec triggerCountSQL]) = some 1 from rfl]
              rw [connRun_no_conn t hnc (some 1)]
            cases b
            · refine ⟨?_, by simp⟩
              show (connRun (some 0)
                ((([Ev.openConn targetDB, Ev.exec tableCountSQL]
                  ++ [Ev.exec viewCountSQL, Ev.exec functionCountSQL,
                      Ev.exec triggerCountSQL]) ++ t) ++ ([] : List Ev))).isSome = true
              rw [hrun []]
              rfl
            · have h0 : connRun (some 0)
                  ((([Ev.openConn targetDB, Ev.exec tableCountSQL]
                    ++ [Ev.exec viewCountSQL, Ev.exec functionCountSQL,
                        Ev.exec triggerCountSQL]) ++ t) ++ [Ev.closeConn]) = some 0 := by
                rw [hrun [Ev.closeConn]]
                rfl
              refine ⟨?_, fun _ => ⟨?_, ?_⟩⟩
              · show (connRun (some 0)
                  ((([Ev.openConn targetDB, Ev.exec tableCountSQL]
                    ++ [Ev.exec viewCountSQL, Ev.exec functionCountSQL,
                        Ev.exec triggerCountSQL]) ++ t) ++ [Ev.closeConn])).isSome = true
                rw [h0]
                rfl
              · exact h0
              · exact ⟨([Ev.openConn targetDB, Ev.exec tableCountSQL]
                  ++ [Ev.exec viewCountSQL, Ev.exec functionCountSQL,
                      Ev.exec triggerCountSQL]) ++ t, rfl⟩

theorem explainPreTrace_conn (env : ExplainEnv) :
    connRun (some 0) (explainPreTrace env) = some 1 := by
  unfold explainPreTrace
  rw [connRun_append]
  have hM : ∀ x ∈ (analyzeAllTrace env.planRes QUERIES_TO_ANALYZE
      ++ (get_index_usage_stats env.idxErr env.idxStats).1)
      ++ (get_table_sizes env.sizeErr env.sizeStats).1, isConnEv x = false := by
    intro x hx
    rcases List.mem_append.mp hx with hx | hx
    · rcases List.mem_append.mp hx with hx | hx
      · exact analyzeAllTrace_no_conn _ _ x hx
      · exact idx_stats_no_conn _ _ x hx
    · exact table_sizes_no_conn _ _ x hx
  have h1 : connRun (some 0) (Ev.openConn targetDB ::
      ((analyzeAllTrace env.planRes QUERIES_TO_ANALYZE
        ++ (get_index_usage_stats env.idxErr env.idxStats).1)
        ++ (get_table_sizes env.sizeErr env.sizeStats).1)) = some 1 := by
    have hstep : connRun (some 0) (Ev.openConn targetDB ::
        ((analyzeAllTrace env.planRes QUERIES_TO_ANALYZE
          ++ (get_index_usage_stats env.idxErr env.idxStats).1)
          ++ (get_table_sizes env.sizeErr env.sizeStats).1))
        = connRun (some 1)
            ((analyzeAllTrace env.planRes QUERIES_TO_ANALYZE
              ++ (get_index_usage_stats env.idxErr env.idxStats).1)
              ++ (get_table_sizes env.sizeErr env.sizeStats).1) := rfl
    rw [hstep, connRun_no_conn _ hM]
  rw [h1]
  rfl

theorem explainMain_conn (env : ExplainEnv) :
    (connRun (some 0) (explainMain env).1).isSome = true ∧
    (∀ line, env.connectRes = .ok () → env.benchIn = .answer line →
      connRun (some 0) (explainMain env).1 = some 0 ∧
      ∃ t', (explainMain env).1 = t' ++ [Ev.closeConn]) := by
  rcases hc : env.connectRes with e | u
  · have heq : explainMain env = ([], .exit 1) := by
      unfold explainMain
      rw [hc]
    rw [heq]
    refine ⟨rfl, ?_⟩
    intro line h1 _
    cases h1
  · rcases hb : env.benchIn with line | _
    · by_cases hy : (pyNorm line == "y") = true
      · have heq : (explainMain env).1 = explainPreTrace env
            ++ benchAll env.benchTime 0 QUERIES_TO_ANALYZE ++ [Ev.closeConn] := by
          unfold explainMain
          rw [hc, hb]
          simp [hy]
        rw [heq]
        have hbn : ∀ x ∈ benchAll env.benchTime 0 QUERIES_TO_ANALYZE, isConnEv x = false :=
          benchAll_no_conn env.benchTime QUERIES_TO_ANALYZE 0
        have hmain : connRun (some 0) (explainPreTrace env
            ++ benchAll env.benchTime 0 QUERIES_TO_ANALYZE ++ [Ev.closeConn]) = some 0 := by
          rw [connRun_append, connRun_append, explainPreTrace_conn,
            connRun_no_conn _ hbn (some 1)]
          rfl
        exact ⟨by rw [hmain]; rfl, fun _ _ _ => ⟨hmain,
          ⟨explainPreTrace env ++ benchAll env.benchTime 0 QUERIES_TO_ANALYZE, rfl⟩⟩⟩
      · have heq : (explainMain env).1 = explainPreTrace env ++ [Ev.closeConn] := by
          unfold explainMain
          rw [hc, hb]
          simp [hy]
        rw [heq]
        have hmain : connRun (some 0) (explainPreTrace env ++ [Ev.closeConn]) = some 0 := by
          rw [connRun_append, explainPreTrace_conn]
          rfl
        exact ⟨by rw [hmain]; rfl, fun _ _ _ => ⟨hmain, ⟨explainPreTrace env, rfl⟩⟩⟩
    · have heq : (explainMain env).1 = explainPreTrace env := by
        unfold explainMain
        rw [hc, hb]
      rw [heq]
      refine ⟨by rw [explainPreTrace_conn]; rfl, ?_⟩
      intro line _ h2
      cases h2

theorem loadMain_conn (env : LoadEnv) :
    (connRun (some 0) (loadMain env).1).isSome = true := by
  unfold loadMain
  rcases env.startIn with s | _
  · rcases hc : create_database env.cEnv with t | ⟨t, o, b⟩
    · have h := (create_database_conn env.cEnv).1
      rw [hc] at h
      simpa [PhaseOut.trace] using h
    · cases b
      · have h := (create_database_conn env.cEnv).1
        rw [hc] at h
        simpa [PhaseOut.trace] using h
      · have h2 := (create_database_conn env.cEnv).2
        rw [hc] at h2
        obtain ⟨hz, _⟩ := h2 (by simp [PhaseOut.okr])
        simp only [PhaseOut.trace] at hz
        rcases hr : run_sql_scripts env.sEnv with ⟨t2, o2, ok2⟩
        obtain ⟨hs0, _⟩ := run_sql_scripts_conn env.sEnv
        rw [hr] at hs0
        simp only at hs0
        cases ok2
        · show (connRun (some 0) (t ++ t2)).isSome = true
          rw [connRun_append, hz, hs0]
          rfl
        · rcases hv : verify_installation env.vEnv with ⟨t3, o3, ok3⟩
          have hv0 := (verify_installation_conn env.vEnv).1
          rw [hv] at hv0
          simp only at hv0
          show (connRun (some 0) (t ++ t2 ++ t3)).isSome = true
          rw [connRun_append, connRun_append, hz, hs0]
          exact hv0
  · rfl

/-- Claim C9: in each program the connection-count automaton accepts
every possible trace (at most one database connection is open at any
time, and no close happens without an open), and on every path that
returns success from a logical phase (create_database, run_sql_scripts,
verify_installation, the analyzer's main sequence) the connection
opened in that phase is explicitly closed before the phase ends (the
trace is balanced and its last event is the close). -/
theorem claim_C9 :
    (∀ env : LoadEnv, (connCount (loadMain env).1).isSome = true) ∧
    (∀ env : ExplainEnv, (connCount (explainMain env).1).isSome = true) ∧
    (∀ env : CreateDBEnv, (create_database env).okr = true →
        connCount (create_database env).trace = some 0 ∧
        ∃ t', (create_database env).trace = t' ++ [Ev.closeConn]) ∧
    (∀ env : ScriptsEnv, (run_sql_scripts env).2.2 = true →
        connCount (run_sql_scripts env).1 = some 0 ∧
        ∃ t', (run_sql_scripts env).1 = t' ++ [Ev.closeConn]) ∧
    (∀ env : VerifyEnv, (verify_installation env).2.2 = true →
        connCount (verify_installation env).1 = some 0 ∧
        ∃ t', (verify_installation env).1 = t' ++ [Ev.closeConn]) ∧
    (∀ (env : ExplainEnv) (line : String), env.connectRes = .ok () →
        env.benchIn = .answer line →
        connCount (explainMain env).1 = some 0 ∧
        ∃ t', (explainMain env).1 = t' ++ [Ev.closeConn]) :=
  ⟨loadMain_conn,
   fun env => (explainMain_conn env).1,
   fun env h => (create_database_conn env).2 h,
   fun env h => ⟨(run_sql_scripts_conn env).1, (run_sql_scripts_conn env).2 h⟩,
   fun env h => (verify_installation_conn env).2 h,
   fun env line h1 h2 => (explainMain_conn env).2 line h1 h2⟩

/-- Witness for C9 at concrete environments: a full successful loader
run, and each phase at a succeeding environment. -/
theorem claim_C9_witness :
    (connCount (loadMain ⟨.answer "", ⟨.ok (), .ok false, .answer "", .ok (), .ok (), .ok ()⟩,
        ⟨true, .ok (), fun _ => .ok⟩,
        ⟨.ok (), .ok 1, .ok 1, .ok 1, .ok 1, fun _ => .ok 0⟩⟩).1).isSome = true ∧
    (connCount (create_database
        ⟨.ok (), .ok false, .answer "", .ok (), .ok (), .ok ()⟩).trace = some 0 ∧
      ∃ t', (create_database
        ⟨.ok (), .ok false, .answer "", .ok (), .ok (), .ok ()⟩).trace
          = t' ++ [Ev.closeConn]) ∧
    (connCount (run_sql_scripts ⟨true, .ok (), fun _ => .ok⟩).1 = some 0 ∧
      ∃ t', (run_sql_scripts ⟨true, .ok (), fun _ => .ok⟩).1 = t' ++ [Ev.closeConn]) ∧
    (connCount (verify_installation
        ⟨.ok (), .ok 1, .ok 1, .ok 1, .ok 1, fun _ => .ok 0⟩).1 = some 0 ∧
      ∃ t', (verify_installation
        ⟨.ok (), .ok 1, .ok 1, .ok 1, .ok 1, fun _ => .ok 0⟩).1 = t' ++ [Ev.closeConn]) ∧
    (connCount (explainMain ⟨.ok (), fun _ => .ok [], none, [], none, [],
        .answer "", fun _ _ => .ok 1⟩).1 = some 0 ∧
      ∃ t', (explainMain ⟨.ok (), fun _ => .ok [], none, [], none, [],
        .answer "", fun _ _ => .ok 1⟩).1 = t' ++ [Ev.closeConn]) :=
  ⟨claim_C9.1 ⟨.answer "", ⟨.ok (), .ok false, .answer "", .ok (), .ok (), .ok ()⟩,
      ⟨true, .ok (), fun _ => .ok⟩,
      ⟨.ok (), .ok 1, .ok 1, .ok 1, .ok 1, fun _ => .ok 0⟩⟩,
   claim_C9.2.2.1 ⟨.ok (), .ok false, .answer "", .ok (), .ok (), .ok ()⟩ rfl,
   claim_C9.2.2.2.1 ⟨true, .ok (), fun _ => .ok⟩ (by decide),
   claim_C9.2.2.2.2.1 ⟨.ok (), .ok 1, .ok 1, .ok 1, .ok 1, fun _ => .ok 0⟩ (by decide),
   claim_C9.2.2.2.2.2 ⟨.ok (), fun _ => .ok [], none, [], none, [],
      .answer "", fun _ _ => .ok 1⟩ "" rfl rfl⟩
